import Mathlib

/-!
Shallow embedding of the order-lifecycle reconciliation engine of `bot.py`
(the SMM reseller bot), together with the retry wrapper, balance ledger and
message-send helpers, and proofs about the resulting definitions.

Conventions of the embedding:
* Python floats (money amounts) are modelled as exact rationals (`Rat`).
* Python ints are `Int`.
* A missing/NULL string field is modelled as `""` (both are falsy in Python
  and are used interchangeably by the code's truthiness tests).
* A NULL `ref_owner_id` is modelled as `0` (`if ref_owner:` treats `None`
  and `0` identically).
* The record store (Supabase tables `services`, `users`, `WebsiteOrders`)
  is modelled as lists of rows; `select ... eq(k,v)` followed by `data[0]`
  is `List.find?`, and `update(fields).eq(k,v)` maps the update over every
  matching row, which is exactly what the store does.
* `bot.py` defines `safe_execute`, `safe_send` and `update_user_balance`
  several times; at runtime the *last* definition of each name wins.  Both
  the shadowed and the effective versions are embedded where a claim needs
  them, each annotated with the line it comes from.
-/

/-- Row of the `services` table (fields used by the reconciler). -/
structure ServiceRow where
  id : Int
  serviceName : String
  totalSoldQty : Int
deriving DecidableEq

/-- Row of the `users` table (fields used by the reconciler and ledger). -/
structure UserRow where
  id : Int
  email : String
  balance : Rat
  totalSpend : Rat
  refOwner : Int
  withdrawable : Rat
deriving DecidableEq

/-- Row of the `WebsiteOrders` table (fields used by the reconciler). -/
structure OrderRow where
  id : Int
  email : String
  service : String
  quantity : Int
  remain : Int
  sellCharge : Rat
  price : Rat
  status : String
  refundAmount : Option Rat
deriving DecidableEq

/-- The record store: the three tables touched by the reconciler. -/
structure Store where
  services : List ServiceRow
  users : List UserRow
  orders : List OrderRow
deriving DecidableEq

/-- Python's `str.lower()` restricted to what the kernel reduces:
character-wise lowercasing. -/
def lowerStr (s : String) : String := ⟨s.data.map Char.toLower⟩

/-- Boolean "needle occurs in hay" used to model the `ilike "%name%"` filter
of `find_service_for_order`. -/
def strContainsB (hay needle : String) : Bool :=
  hay.data.tails.any (fun t => needle.data.isPrefixOf t)

/-- `sell_price = float(order.get("sell_charge") or order.get("price") or 0)`
(bot.py line 1232): `or`-coalescing over Python truthiness. -/
def effSellPrice (o : OrderRow) : Rat :=
  if o.sellCharge ≠ 0 then o.sellCharge else o.price

/-- First `users` row with the given email
(`supabase.table("users")...eq("email", email)...data[0]`). -/
def userByEmail (st : Store) (email : String) : Option UserRow :=
  st.users.find? (fun u => u.email == email)

/-- First `users` row with the given id (`...eq("id", ref_owner)...data[0]`). -/
def userById (st : Store) (uid : Int) : Option UserRow :=
  st.users.find? (fun u => u.id == uid)

/-- First `services` row with the given id. -/
def serviceById (st : Store) (sid : Int) : Option ServiceRow :=
  st.services.find? (fun s => s.id == sid)

/-- First `WebsiteOrders` row with the given id. -/
def orderById (st : Store) (oid : Int) : Option OrderRow :=
  st.orders.find? (fun r => r.id == oid)

/-- `supabase.table("services").update({"total_sold_qty": v}).eq("id", sid)`. -/
def setSoldById (st : Store) (sid : Int) (v : Int) : Store :=
  { st with services :=
      st.services.map (fun s => if s.id == sid then { s with totalSoldQty := v } else s) }

/-- `supabase.table("users").update({"total_spend": v}).eq("email", e)`. -/
def setSpendByEmail (st : Store) (e : String) (v : Rat) : Store :=
  { st with users :=
      st.users.map (fun u => if u.email == e then { u with totalSpend := v } else u) }

/-- `supabase.table("users").update({"balance_usd": v}).eq("email", e)`. -/
def setBalanceByEmail (st : Store) (e : String) (v : Rat) : Store :=
  { st with users :=
      st.users.map (fun u => if u.email == e then { u with balance := v } else u) }

/-- `supabase.table("users").update({"withdrawable_balance": v}).eq("id", uid)`. -/
def setWithdrawById (st : Store) (uid : Int) (v : Rat) : Store :=
  { st with users :=
      st.users.map (fun u => if u.id == uid then { u with withdrawable := v } else u) }

/-- `supabase.table("WebsiteOrders").update({"refund_amount": amt, "status":
"Refunded"}).eq("id", oid)` (bot.py lines 1303 and 1318). -/
def setOrderRefunded (st : Store) (oid : Int) (amt : Rat) : Store :=
  { st with orders :=
      st.orders.map (fun r =>
        if r.id == oid then { r with refundAmount := some amt, status := "Refunded" } else r) }

/-- `find_service_for_order` (bot.py line 1212): exact match on
`service_name`, falling back to a case-insensitive substring (`ilike`)
match, first hit only; `None` when the order has no service name or nothing
matches. -/
def find_service_for_order (st : Store) (o : OrderRow) : Option ServiceRow :=
  if o.service ≠ "" then
    match st.services.find? (fun s => s.serviceName == o.service) with
    | some r => some r
    | none =>
        st.services.find? (fun s =>
          strContainsB (lowerStr s.serviceName) (lowerStr o.service))
  else none

/-- `update_user_balance` (bot.py line 730, the effective, i.e. last,
definition) on a fault-free store: read `balance_usd` of the user, write
`bal + amount` back, return `True`; return `False` when no user row
matches.  The `db_lock` region is a no-op in this sequential model. -/
def update_user_balance (st : Store) (email : String) (amount : Rat) : Store × Bool :=
  match userByEmail st email with
  | none => (st, false)
  | some u => (setBalanceByEmail st email (u.balance + amount), true)

/-- `handle_referral_and_bonus` (bot.py line 1260).  `none` models the
uncaught `IndexError` raised by `...execute().data[0]` when `ref_owner_id`
is set but no user row has that id (the exception is caught by the outer
`try` of the reconciler, keeping all writes made so far). -/
def handle_referral_and_bonus (st : Store) (email : String) (amount : Rat)
    (add : Bool) : Option Store :=
  match userByEmail st email with
  | none => some st
  | some userInfo =>
    let step1 : Option Store :=
      if userInfo.refOwner ≠ 0 then
        let delta := if add then amount * (4 / 100) else -(amount * (4 / 100))
        match userById st userInfo.refOwner with
        | none => none
        | some owner => some (setWithdrawById st userInfo.refOwner (owner.withdrawable + delta))
      else some st
    match step1 with
    | none => none
    | some st1 =>
      if userInfo.totalSpend > 10 then
        let bonus := if add then amount * (1 / 100) else -(amount * (1 / 100))
        some (update_user_balance st1 email bonus).1
      else some st1

/-- `refund_amount = (remain / qty) * sell_price if remain else sell_price`
(bot.py line 1296): refund of an order whose old status was Completed. -/
def refundCompleted (o : OrderRow) : Rat :=
  if o.remain ≠ 0 then ((o.remain : Rat) / (o.quantity : Rat)) * effSellPrice o
  else effSellPrice o

/-- `refund_amount = (sell_price / qty) * remain` (bot.py line 1312): refund
of an order cancelled before ever being Completed. -/
def refundPartial (o : OrderRow) : Rat :=
  (effSellPrice o / (o.quantity : Rat)) * (o.remain : Rat)

/-- `spend_amount = sell_price - refund_amount` (bot.py line 1313). -/
def spendAddedPartial (o : OrderRow) : Rat :=
  effSellPrice o - refundPartial o

/-- A call to `handle_referral_and_bonus` as seen from the reconciler: its
exception is caught by the reconciler's outer `try`, and nothing after the
call touches the store, so a failing call leaves the state it was given. -/
def referralStep (st : Store) (email : String) (amount : Rat) (add : Bool) : Store :=
  match handle_referral_and_bonus st email amount add with
  | some st1 => st1
  | none => st

/-- Branch `new == "completed" and old != "completed"` of
`adjust_service_qty_on_status_change` (bot.py lines 1282-1290). -/
def completedBranch (st : Store) (o : OrderRow) (svc : ServiceRow) : Store :=
  let sell_price := effSellPrice o
  let st1 := setSoldById st svc.id (svc.totalSoldQty + o.quantity)
  let st2 :=
    if o.email ≠ "" ∧ sell_price ≠ 0 then
      match userByEmail st1 o.email with
      | some u => setSpendByEmail st1 o.email (u.totalSpend + sell_price)
      | none => st1
    else st1
  referralStep st2 o.email sell_price true

/-- Branch `old == "completed" and new in ("partial","canceled","cancelled")`
of `adjust_service_qty_on_status_change` (bot.py lines 1292-1305). -/
def refundBranch (st : Store) (o : OrderRow) (svc : ServiceRow) : Store :=
  let sell_price := effSellPrice o
  let st1 := setSoldById st svc.id (max 0 (svc.totalSoldQty - o.quantity))
  if o.email ≠ "" ∧ o.quantity ≠ 0 ∧ sell_price ≠ 0 then
    let refund := refundCompleted o
    let st2 :=
      match userByEmail st1 o.email with
      | some u => setSpendByEmail st1 o.email (max 0 (u.totalSpend - refund))
      | none => st1
    let st3 := (update_user_balance st2 o.email refund).1
    let st4 := setOrderRefunded st3 o.id refund
    referralStep st4 o.email refund false
  else st1

/-- Branch `new in ("partial","canceled","cancelled") and old not in
("completed","partial","canceled","cancelled")` of
`adjust_service_qty_on_status_change` (bot.py lines 1307-1321). -/
def partialBranch (st : Store) (o : OrderRow) (svc : ServiceRow) : Store :=
  let sell_price := effSellPrice o
  let done_qty := max 0 (o.quantity - o.remain)
  let st1 := setSoldById st svc.id (svc.totalSoldQty + done_qty)
  if 0 < o.quantity ∧ 0 < sell_price then
    let refund := refundPartial o
    let spend_amount := spendAddedPartial o
    let st2 :=
      match userByEmail st1 o.email with
      | some u => setSpendByEmail st1 o.email (u.totalSpend + spend_amount)
      | none => st1
    let st3 := (update_user_balance st2 o.email refund).1
    setOrderRefunded st3 o.id refund
  else st1

/-- `adjust_service_qty_on_status_change` (bot.py line 1226): the Status
Reconciler.  Status comparison is on lowercased strings; a missing service
row aborts the transition; notifications carry no store state and are
omitted. -/
def adjust_service_qty_on_status_change (st : Store) (o : OrderRow)
    (old_status new_status : String) : Store :=
  let old := lowerStr old_status
  let nw := lowerStr new_status
  match find_service_for_order st o with
  | none => st
  | some svc =>
    if nw = "completed" ∧ old ≠ "completed" then
      completedBranch st o svc
    else if old = "completed" ∧ (nw = "partial" ∨ nw = "canceled" ∨ nw = "cancelled") then
      refundBranch st o svc
    else if (nw = "partial" ∨ nw = "canceled" ∨ nw = "cancelled") ∧
        ¬(old = "completed" ∨ old = "partial" ∨ old = "canceled" ∨ old = "cancelled") then
      partialBranch st o svc
    else st

/-- One reconciler invocation, as driven by the polling loop / operator
commands: `(order row, old status, new status)`. -/
def stepTransition (st : Store) (t : OrderRow × String × String) : Store :=
  adjust_service_qty_on_status_change st t.1 t.2.1 t.2.2

/-- A sequence of reconciler invocations. -/
def runTransitions (st : Store) (ts : List (OrderRow × String × String)) : Store :=
  ts.foldl stepTransition st

/-- Outcome of one attempt of an operation wrapped by `safe_execute`:
either a value, or an exception with an identity and the classification
`is_transient_exception` (bot.py line 616) would give it. -/
inductive AttemptStep
  | ok (v : Int)
  | exn (eid : Nat) (transient : Bool)
deriving DecidableEq

/-- What a run of `safe_execute` produces for its caller. -/
inductive ExecResult
  | value (v : Int)
  | raised (eid : Nat)
  | raisedNone
  | dummyNone
deriving DecidableEq

/-- Observable trace of a `safe_execute` run: the outcome, the number of
attempts performed, and the sleeps taken (in seconds). -/
structure ExecTrace where
  result : ExecResult
  attemptsMade : Nat
  delays : List Rat
deriving DecidableEq

/-- Loop body of `safe_execute` (bot.py line 626): `remaining` attempts left,
`attempt` the current 0-based index, `lastE` the last exception seen. -/
def seGo (f : Nat → AttemptStep) (baseDelay : Rat) :
    Nat → Nat → Option Nat → ExecTrace
  | 0, attempt, lastE =>
      { result := match lastE with | some e => .raised e | none => .raisedNone,
        attemptsMade := attempt, delays := [] }
  | r + 1, attempt, _ =>
      match f attempt with
      | .ok v => { result := .value v, attemptsMade := attempt + 1, delays := [] }
      | .exn eid true =>
          let rest := seGo f baseDelay r (attempt + 1) (some eid)
          { rest with delays := (baseDelay * 2 ^ attempt) :: rest.delays }
      | .exn eid false =>
          { result := .raised eid, attemptsMade := attempt + 1, delays := [] }

/-- `safe_execute(func, retries, base_delay)` (bot.py lines 626-641, the
retrying version, shadowed at runtime): transient errors sleep
`base_delay * 2 ** attempt` and retry; a non-transient error re-raises at
once; exhaustion re-raises the last error. -/
def safe_execute_v626 (f : Nat → AttemptStep) (retries : Nat) (baseDelay : Rat) : ExecTrace :=
  seGo f baseDelay retries 0 none

/-- `safe_execute(func)` (bot.py lines 701-708, the definition in effect at
runtime): a single attempt whose exception, transient or fatal, is swallowed,
returning a stub object with `data = None`. -/
def safe_execute_eff (f : Nat → AttemptStep) : ExecTrace :=
  match f 0 with
  | .ok v => { result := .value v, attemptsMade := 1, delays := [] }
  | .exn _ _ => { result := .dummyNone, attemptsMade := 1, delays := [] }

/-- Greedy split of a character list into runs of at most 4000, modelling
`for i in range(0, len(text), MAX_LEN): text[i:i+MAX_LEN]` (bot.py line 27). -/
def sendChunks (l : List Char) : List (List Char) :=
  if l = [] then [] else l.take 4000 :: sendChunks (l.drop 4000)
termination_by l.length
decreasing_by
  simp only [List.length_drop]
  have hl : 0 < l.length := List.length_pos.mpr (by assumption)
  omega

/-- `safe_send` (bot.py lines 22-32, shadowed at runtime): the texts passed to
`bot.send_message`, splitting at `MAX_LEN = 4000`. -/
def safe_send_v22 (text : String) : List String :=
  if text.length > 4000 then (sendChunks text.data).map (fun c => ⟨c⟩) else [text]

/-- `safe_send` (bot.py lines 984-988, the definition in effect at runtime):
the whole text goes to `bot.send_message` in one call, whatever its length. -/
def safe_send_eff (text : String) : List String := [text]

/-- `update_user_balance` (bot.py lines 730-758, the definition in effect at
runtime) with injected store faults: the effective `safe_execute` (line 701)
swallows any exception of the wrapped call and returns a stub with
`data = None`, so a failing select yields `False` while a failing update is
ignored and the function still returns `True`. -/
def update_user_balance_faulty (readFails writeFails : Bool) (st : Store)
    (email : String) (amount : Rat) : Store × Bool :=
  if readFails then (st, false)
  else
    match userByEmail st email with
    | none => (st, false)
    | some u =>
        if writeFails then (st, true)
        else (setBalanceByEmail st email (u.balance + amount), true)

/-- The sold-quantity counter of the service row with id `sid`. -/
def soldOf (st : Store) (sid : Int) : Option Int :=
  (serviceById st sid).map (fun s => s.totalSoldQty)

/-- The `total_spend` of the (first) user row with the given email. -/
def spendOf (st : Store) (e : String) : Option Rat :=
  (userByEmail st e).map (fun u => u.totalSpend)

/-- The `balance_usd` of the (first) user row with the given email. -/
def balanceOf (st : Store) (e : String) : Option Rat :=
  (userByEmail st e).map (fun u => u.balance)

/-- The `withdrawable_balance` of the (first) user row with the given id. -/
def withdrawOf (st : Store) (uid : Int) : Option Rat :=
  (userById st uid).map (fun u => u.withdrawable)

/-- The status of the (first) order row with the given id. -/
def statusOf (st : Store) (oid : Int) : Option String :=
  (orderById st oid).map (fun r => r.status)

/-- The stored refund amount of the (first) order row with the given id. -/
def refundOf (st : Store) (oid : Int) : Option (Option Rat) :=
  (orderById st oid).map (fun r => r.refundAmount)

/-- The six canonical order statuses of the data model, lowercased. -/
def canonStatuses : List String :=
  ["pending", "processing", "completed", "partial", "canceled", "refunded"]

/-- `st'` differs from `st` only by a per-user-row rewrite that keeps each
row's id, email and `total_spend` (the shape of every write
`handle_referral_and_bonus` can make). -/
def UsersMapped (st st' : Store) : Prop :=
  ∃ f : UserRow → UserRow,
    (∀ x, (f x).email = x.email) ∧ (∀ x, (f x).totalSpend = x.totalSpend) ∧
    (∀ x, (f x).id = x.id) ∧
    st'.users = st.users.map f ∧ st'.services = st.services ∧ st'.orders = st.orders

/-- Sold quantities and total spends in the store are all non-negative. -/
def nonnegStore (st : Store) : Prop :=
  (∀ s ∈ st.services, 0 ≤ s.totalSoldQty) ∧ (∀ u ∈ st.users, 0 ≤ u.totalSpend)

/-- Sanity of an order row's numeric fields: non-negative quantity and
prices, and remaining units between 0 and the quantity. -/
def wfOrder (o : OrderRow) : Prop :=
  0 ≤ o.quantity ∧ 0 ≤ o.remain ∧ o.remain ≤ o.quantity ∧
  0 ≤ o.sellCharge ∧ 0 ≤ o.price

/-! Concrete rows and stores used by the closed instance theorems. -/

def svcA : ServiceRow := ⟨1, "tiktok likes", 50⟩

def ownerA : UserRow := ⟨9, "r@s.t", 0, 0, 0, 5⟩

def userA : UserRow := ⟨7, "a@b.c", 100, 20, 9, 0⟩

def userC : UserRow := ⟨7, "a@b.c", 100, 30, 9, 0⟩

def userB : UserRow := ⟨7, "a@b.c", 100, 0, 0, 0⟩

def oC3 : OrderRow := ⟨5, "a@b.c", "tiktok likes", 1000, 0, 20, 0, "Processing", none⟩

def stC3 : Store := ⟨[svcA], [userA, ownerA], [oC3]⟩

def oC1x : OrderRow := ⟨5, "a@b.c", "tiktok likes", 0, 0, 10, 0, "Completed", none⟩

def stC1x : Store := ⟨[svcA], [userB, ownerA], [oC1x]⟩

def oC1w : OrderRow := ⟨5, "a@b.c", "tiktok likes", 1000, 0, 10, 0, "Completed", none⟩

def stC1w : Store := ⟨[svcA], [userC, ownerA], [oC1w]⟩

def oC2 : OrderRow := ⟨5, "a@b.c", "tiktok likes", 1000, 400, 10, 0, "Pending", none⟩

def stC2 : Store := ⟨[svcA], [userB, ownerA], [oC2]⟩

def svcC5 : ServiceRow := ⟨1, "s", 0⟩

def userC5 : UserRow := ⟨7, "a@b.c", 0, 0, 0, 0⟩

def oC5x : OrderRow := ⟨5, "a@b.c", "s", 1, 2, 1, 0, "Pending", none⟩

def stC5x : Store := ⟨[svcC5], [userC5], [oC5x]⟩

def oC8 : OrderRow := ⟨5, "a@b.c", "tiktok likes", 1000, 0, 10, 0, "Processing", none⟩

def stC8 : Store := ⟨[svcA], [userB], [oC8]⟩

def oC10 : OrderRow := ⟨5, "a@b.c", "tiktok likes", 1000, 0, 0, 0, "Completed", none⟩

def stC10 : Store := ⟨[svcA], [userB, ownerA], [oC10]⟩

/-- An operation that fails transiently once, then succeeds. -/
def c6f : Nat → AttemptStep :=
  fun n => if n = 0 then AttemptStep.exn 7 true else AttemptStep.ok 42

/-- An operation that always fails fatally with error 9. -/
def c6fatal : Nat → AttemptStep := fun _ => AttemptStep.exn 9 false

/-- An operation that fails transiently forever, error id = attempt index. -/
def c6transient : Nat → AttemptStep := fun n => AttemptStep.exn n true

def stC7 : Store := ⟨[], [⟨7, "a@b.c", 5, 0, 0, 0⟩], []⟩

/-- A 4001-character message. -/
def c9text : String := ⟨List.replicate 4001 'a'⟩

theorem find?_map_of_pres {α : Type} (l : List α) (p : α → Bool) (f : α → α)
    (h : ∀ a, p (f a) = p a) : (l.map f).find? p = (l.find? p).map f := by
  induction l with
  | nil => rfl
  | cons a t ih =>
    simp only [List.map_cons, List.find?_cons]
    rw [h a]
    cases hp : p a <;> simp [ih]

theorem users_setSoldById (st : Store) (sid : Int) (v : Int) :
    (setSoldById st sid v).users = st.users := rfl

theorem orders_setSoldById (st : Store) (sid : Int) (v : Int) :
    (setSoldById st sid v).orders = st.orders := rfl

theorem services_setSpendByEmail (st : Store) (e : String) (v : Rat) :
    (setSpendByEmail st e v).services = st.services := rfl

theorem orders_setSpendByEmail (st : Store) (e : String) (v : Rat) :
    (setSpendByEmail st e v).orders = st.orders := rfl

theorem services_setBalanceByEmail (st : Store) (e : String) (v : Rat) :
    (setBalanceByEmail st e v).services = st.services := rfl

theorem orders_setBalanceByEmail (st : Store) (e : String) (v : Rat) :
    (setBalanceByEmail st e v).orders = st.orders := rfl

theorem services_setWithdrawById (st : Store) (uid : Int) (v : Rat) :
    (setWithdrawById st uid v).services = st.services := rfl

theorem orders_setWithdrawById (st : Store) (uid : Int) (v : Rat) :
    (setWithdrawById st uid v).orders = st.orders := rfl

theorem users_setOrderRefunded (st : Store) (oid : Int) (amt : Rat) :
    (setOrderRefunded st oid amt).users = st.users := rfl

theorem services_setOrderRefunded (st : Store) (oid : Int) (amt : Rat) :
    (setOrderRefunded st oid amt).services = st.services := rfl

theorem userByEmail_setSpend (st : Store) (e : String) (v : Rat) (e' : String) :
    userByEmail (setSpendByEmail st e v) e' =
      (userByEmail st e').map
        (fun a => if a.email == e then { a with totalSpend := v } else a) := by
  unfold userByEmail setSpendByEmail
  apply find?_map_of_pres
  intro a
  by_cases h : a.email == e <;> simp [h]

theorem userByEmail_setBalance (st : Store) (e : String) (v : Rat) (e' : String) :
    userByEmail (setBalanceByEmail st e v) e' =
      (userByEmail st e').map
        (fun a => if a.email == e then { a with balance := v } else a) := by
  unfold userByEmail setBalanceByEmail
  apply find?_map_of_pres
  intro a
  by_cases h : a.email == e <;> simp [h]

theorem userByEmail_setWithdraw (st : Store) (uid : Int) (v : Rat) (e' : String) :
    userByEmail (setWithdrawById st uid v) e' =
      (userByEmail st e').map
        (fun a => if a.id == uid then { a with withdrawable := v } else a) := by
  unfold userByEmail setWithdrawById
  apply find?_map_of_pres
  intro a
  by_cases h : a.id == uid <;> simp [h]

theorem userById_setSpend (st : Store) (e : String) (v : Rat) (uid : Int) :
    userById (setSpendByEmail st e v) uid =
      (userById st uid).map
        (fun a => if a.email == e then { a with totalSpend := v } else a) := by
  unfold userById setSpendByEmail
  apply find?_map_of_pres
  intro a
  by_cases h : a.email == e <;> simp [h]

theorem userById_setBalance (st : Store) (e : String) (v : Rat) (uid : Int) :
    userById (setBalanceByEmail st e v) uid =
      (userById st uid).map
        (fun a => if a.email == e then { a with balance := v } else a) := by
  unfold userById setBalanceByEmail
  apply find?_map_of_pres
  intro a
  by_cases h : a.email == e <;> simp [h]

theorem userById_setWithdraw (st : Store) (uid : Int) (v : Rat) (uid' : Int) :
    userById (setWithdrawById st uid v) uid' =
      (userById st uid').map
        (fun a => if a.id == uid then { a with withdrawable := v } else a) := by
  unfold userById setWithdrawById
  apply find?_map_of_pres
  intro a
  by_cases h : a.id == uid <;> simp [h]

theorem serviceById_setSold (st : Store) (sid : Int) (v : Int) (sid' : Int) :
    serviceById (setSoldById st sid v) sid' =
      (serviceById st sid').map
        (fun s => if s.id == sid then { s with totalSoldQty := v } else s) := by
  unfold serviceById setSoldById
  apply find?_map_of_pres
  intro a
  by_cases h : a.id == sid <;> simp [h]

theorem orderById_setOrderRefunded (st : Store) (oid : Int) (amt : Rat) (oid' : Int) :
    orderById (setOrderRefunded st oid amt) oid' =
      (orderById st oid').map
        (fun r => if r.id == oid then { r with refundAmount := some amt, status := "Refunded" } else r) := by
  unfold orderById setOrderRefunded
  apply find?_map_of_pres
  intro a
  by_cases h : a.id == oid <;> simp [h]

theorem spendOf_setBalance (st : Store) (e : String) (v : Rat) (e' : String) :
    spendOf (setBalanceByEmail st e v) e' = spendOf st e' := by
  unfold spendOf
  rw [userByEmail_setBalance, Option.map_map]
  cases h : userByEmail st e' with
  | none => simp
  | some a => by_cases hh : a.email = e <;> simp [Function.comp, hh]

theorem spendOf_setWithdraw (st : Store) (uid : Int) (v : Rat) (e' : String) :
    spendOf (setWithdrawById st uid v) e' = spendOf st e' := by
  unfold spendOf
  rw [userByEmail_setWithdraw, Option.map_map]
  cases h : userByEmail st e' with
  | none => simp
  | some a => by_cases hh : a.id = uid <;> simp [Function.comp, hh]

theorem balanceOf_setSpend (st : Store) (e : String) (v : Rat) (e' : String) :
    balanceOf (setSpendByEmail st e v) e' = balanceOf st e' := by
  unfold balanceOf
  rw [userByEmail_setSpend, Option.map_map]
  cases h : userByEmail st e' with
  | none => simp
  | some a => by_cases hh : a.email = e <;> simp [Function.comp, hh]

theorem balanceOf_setWithdraw (st : Store) (uid : Int) (v : Rat) (e' : String) :
    balanceOf (setWithdrawById st uid v) e' = balanceOf st e' := by
  unfold balanceOf
  rw [userByEmail_setWithdraw, Option.map_map]
  cases h : userByEmail st e' with
  | none => simp
  | some a => by_cases hh : a.id = uid <;> simp [Function.comp, hh]

theorem withdrawOf_setSpend (st : Store) (e : String) (v : Rat) (uid : Int) :
    withdrawOf (setSpendByEmail st e v) uid = withdrawOf st uid := by
  unfold withdrawOf
  rw [userById_setSpend, Option.map_map]
  cases h : userById st uid with
  | none => simp
  | some a => by_cases hh : a.email = e <;> simp [Function.comp, hh]

theorem withdrawOf_setBalance (st : Store) (e : String) (v : Rat) (uid : Int) :
    withdrawOf (setBalanceByEmail st e v) uid = withdrawOf st uid := by
  unfold withdrawOf
  rw [userById_setBalance, Option.map_map]
  cases h : userById st uid with
  | none => simp
  | some a => by_cases hh : a.email = e <;> simp [Function.comp, hh]

theorem userByEmail_setSpend_self (st : Store) (e : String) (v : Rat) (u : UserRow)
    (hu : userByEmail st e = some u) :
    userByEmail (setSpendByEmail st e v) e = some { u with totalSpend := v } := by
  have hu' : st.users.find? (fun a => a.email == e) = some u := hu
  have hp : u.email = e := by simpa using List.find?_some hu'
  rw [userByEmail_setSpend, hu]
  simp [hp]

theorem userByEmail_setBalance_self (st : Store) (e : String) (v : Rat) (u : UserRow)
    (hu : userByEmail st e = some u) :
    userByEmail (setBalanceByEmail st e v) e = some { u with balance := v } := by
  have hu' : st.users.find? (fun a => a.email == e) = some u := hu
  have hp : u.email = e := by simpa using List.find?_some hu'
  rw [userByEmail_setBalance, hu]
  simp [hp]

theorem withdrawOf_setWithdraw_self (st : Store) (uid : Int) (v : Rat) (w : UserRow)
    (hw : userById st uid = some w) :
    withdrawOf (setWithdrawById st uid v) uid = some v := by
  have hw' : st.users.find? (fun a => a.id == uid) = some w := hw
  have hp : w.id = uid := by simpa using List.find?_some hw'
  unfold withdrawOf
  rw [userById_setWithdraw, hw]
  simp [hp]

theorem soldOf_setSold_self (st : Store) (sid : Int) (v : Int) (svc : ServiceRow)
    (hs : serviceById st sid = some svc) :
    soldOf (setSoldById st sid v) sid = some v := by
  have hs' : st.services.find? (fun a => a.id == sid) = some svc := hs
  have hp : svc.id = sid := by simpa using List.find?_some hs'
  unfold soldOf
  rw [serviceById_setSold, hs]
  simp [hp]

theorem statusOf_setOrder_self (st : Store) (oid : Int) (amt : Rat) (r : OrderRow)
    (hr : orderById st oid = some r) :
    statusOf (setOrderRefunded st oid amt) oid = some "Refunded" := by
  have hr' : st.orders.find? (fun a => a.id == oid) = some r := hr
  have hp : r.id = oid := by simpa using List.find?_some hr'
  unfold statusOf
  rw [orderById_setOrderRefunded, hr]
  simp [hp]

theorem refundOf_setOrder_self (st : Store) (oid : Int) (amt : Rat) (r : OrderRow)
    (hr : orderById st oid = some r) :
    refundOf (setOrderRefunded st oid amt) oid = some (some amt) := by
  have hr' : st.orders.find? (fun a => a.id == oid) = some r := hr
  have hp : r.id = oid := by simpa using List.find?_some hr'
  unfold refundOf
  rw [orderById_setOrderRefunded, hr]
  simp [hp]

theorem uub_services (st : Store) (e : String) (a : Rat) :
    ((update_user_balance st e a).1).services = st.services := by
  unfold update_user_balance
  cases h : userByEmail st e <;> simp [h, services_setBalanceByEmail]

theorem uub_orders (st : Store) (e : String) (a : Rat) :
    ((update_user_balance st e a).1).orders = st.orders := by
  unfold update_user_balance
  cases h : userByEmail st e <;> simp [h, orders_setBalanceByEmail]

theorem uub_spendOf (st : Store) (e : String) (a : Rat) (e' : String) :
    spendOf ((update_user_balance st e a).1) e' = spendOf st e' := by
  unfold update_user_balance
  cases h : userByEmail st e <;> simp [h, spendOf_setBalance]

theorem uub_withdrawOf (st : Store) (e : String) (a : Rat) (uid : Int) :
    withdrawOf ((update_user_balance st e a).1) uid = withdrawOf st uid := by
  unfold update_user_balance
  cases h : userByEmail st e <;> simp [h, withdrawOf_setBalance]

theorem uub_balanceOf_self (st : Store) (e : String) (a : Rat) (u : UserRow)
    (hu : userByEmail st e = some u) :
    balanceOf ((update_user_balance st e a).1) e = some (u.balance + a) := by
  unfold update_user_balance
  rw [hu]
  unfold balanceOf
  rw [userByEmail_setBalance_self st e (u.balance + a) u hu]
  rfl

theorem UsersMapped.refl (st : Store) : UsersMapped st st :=
  ⟨id, fun _ => rfl, fun _ => rfl, fun _ => rfl, by simp, rfl, rfl⟩

theorem UsersMapped.trans {st st1 st2 : Store}
    (h1 : UsersMapped st st1) (h2 : UsersMapped st1 st2) : UsersMapped st st2 := by
  obtain ⟨f, fe, fs, fi, fu, fsv, fo⟩ := h1
  obtain ⟨g, ge, gs, gi, gu, gsv, go⟩ := h2
  refine ⟨g ∘ f, ?_, ?_, ?_, ?_, ?_, ?_⟩
  · intro x; simp [Function.comp, ge, fe]
  · intro x; simp [Function.comp, gs, fs]
  · intro x; simp [Function.comp, gi, fi]
  · rw [gu, fu, List.map_map]
  · rw [gsv, fsv]
  · rw [go, fo]

theorem UsersMapped.setBalance (st : Store) (e : String) (v : Rat) :
    UsersMapped st (setBalanceByEmail st e v) := by
  refine ⟨fun x => if x.email == e then { x with balance := v } else x, ?_, ?_, ?_, rfl, rfl, rfl⟩
  · intro x; by_cases h : x.email = e <;> simp [h]
  · intro x; by_cases h : x.email = e <;> simp [h]
  · intro x; by_cases h : x.email = e <;> simp [h]

theorem UsersMapped.setWithdraw (st : Store) (uid : Int) (v : Rat) :
    UsersMapped st (setWithdrawById st uid v) := by
  refine ⟨fun x => if x.id == uid then { x with withdrawable := v } else x, ?_, ?_, ?_, rfl, rfl, rfl⟩
  · intro x; by_cases h : x.id = uid <;> simp [h]
  · intro x; by_cases h : x.id = uid <;> simp [h]
  · intro x; by_cases h : x.id = uid <;> simp [h]

theorem UsersMapped.uub (st : Store) (e : String) (a : Rat) :
    UsersMapped st ((update_user_balance st e a).1) := by
  unfold update_user_balance
  cases h : userByEmail st e with
  | none => exact UsersMapped.refl st
  | some u => exact UsersMapped.setBalance st e (u.balance + a)

theorem referralStep_usersMapped (st : Store) (e : String) (a : Rat) (b : Bool) :
    UsersMapped st (referralStep st e a b) := by
  unfold referralStep handle_referral_and_bonus
  cases hu : userByEmail st e with
  | none => exact UsersMapped.refl st
  | some userInfo =>
    by_cases hro : userInfo.refOwner = 0
    · simp only [hro, ne_eq, not_true_eq_false, if_false, reduceIte]
      by_cases hts : userInfo.totalSpend > 10
      · simp only [hts, if_true, reduceIte]
        exact UsersMapped.uub st e _
      · simp only [hts, if_false, reduceIte]
        exact UsersMapped.refl st
    · simp only [hro, ne_eq, not_false_eq_true, if_true, reduceIte]
      cases how : userById st userInfo.refOwner with
      | none => exact UsersMapped.refl st
      | some owner =>
        by_cases hts : userInfo.totalSpend > 10
        · simp only [hts, if_true, reduceIte]
          exact (UsersMapped.setWithdraw st userInfo.refOwner _).trans (UsersMapped.uub _ e _)
        · simp only [hts, if_false, reduceIte]
          exact UsersMapped.setWithdraw st userInfo.refOwner _

theorem UsersMapped.spendOf_eq {st st' : Store} (h : UsersMapped st st') (e' : String) :
    spendOf st' e' = spendOf st e' := by
  obtain ⟨f, fe, fs, _, fu, _, _⟩ := h
  unfold spendOf userByEmail
  rw [fu, find?_map_of_pres _ _ _ (fun x => by rw [fe x])]
  cases hx : st.users.find? (fun u => u.email == e') <;> simp [fs]

theorem UsersMapped.services_eq {st st' : Store} (h : UsersMapped st st') :
    st'.services = st.services := h.choose_spec.2.2.2.2.1

theorem UsersMapped.orders_eq {st st' : Store} (h : UsersMapped st st') :
    st'.orders = st.orders := h.choose_spec.2.2.2.2.2

theorem UsersMapped.soldOf_eq {st st' : Store} (h : UsersMapped st st') (sid : Int) :
    soldOf st' sid = soldOf st sid := by
  unfold soldOf serviceById
  rw [h.services_eq]

theorem UsersMapped.statusOf_eq {st st' : Store} (h : UsersMapped st st') (oid : Int) :
    statusOf st' oid = statusOf st oid := by
  unfold statusOf orderById
  rw [h.orders_eq]

theorem UsersMapped.refundOf_eq {st st' : Store} (h : UsersMapped st st') (oid : Int) :
    refundOf st' oid = refundOf st oid := by
  unfold refundOf orderById
  rw [h.orders_eq]

theorem exists_user_of_spendOf {st : Store} {e : String} {x : Rat}
    (h : spendOf st e = some x) :
    ∃ u, userByEmail st e = some u ∧ u.totalSpend = x := by
  unfold spendOf at h
  cases hu : userByEmail st e with
  | none => rw [hu] at h; simp at h
  | some u => rw [hu] at h; simp at h; exact ⟨u, rfl, h⟩

theorem referralStep_balanceOf (st : Store) (e : String) (a : Rat) (b : Bool)
    (u2 : UserRow) (hu2 : userByEmail st e = some u2)
    (how : u2.refOwner ≠ 0 → (userById st u2.refOwner).isSome) :
    balanceOf (referralStep st e a b) e =
      some (u2.balance +
        (if u2.totalSpend > 10 then (if b then a * (1 / 100) else -(a * (1 / 100))) else 0)) := by
  unfold referralStep handle_referral_and_bonus
  rw [hu2]
  by_cases hro : u2.refOwner = 0
  · simp only [hro, ne_eq, not_true_eq_false, if_false, reduceIte]
    by_cases hts : u2.totalSpend > 10
    · simp only [hts, if_true, reduceIte]
      rw [uub_balanceOf_self st e _ u2 hu2]
    · simp only [hts, if_false, reduceIte]
      unfold balanceOf
      rw [hu2]
      simp
  · obtain ⟨ow, howq⟩ := Option.isSome_iff_exists.mp (how hro)
    simp only [hro, ne_eq, not_false_eq_true, if_true, reduceIte]
    rw [howq]
    simp only
    have hu1 : userByEmail
        (setWithdrawById st u2.refOwner
          (ow.withdrawable + (if b then a * (4 / 100) else -(a * (4 / 100))))) e =
        some (if u2.id == u2.refOwner then
          { u2 with withdrawable :=
              ow.withdrawable + (if b then a * (4 / 100) else -(a * (4 / 100))) }
          else u2) := by
      rw [userByEmail_setWithdraw, hu2]
      rfl
    have hbal : (if u2.id == u2.refOwner then
          { u2 with withdrawable :=
              ow.withdrawable + (if b then a * (4 / 100) else -(a * (4 / 100))) }
          else u2).balance = u2.balance := by
      by_cases h : u2.id = u2.refOwner <;> simp [h]
    by_cases hts : u2.totalSpend > 10
    · simp only [hts, if_true, reduceIte]
      rw [uub_balanceOf_self _ e _ _ hu1, hbal]
    · simp only [hts, if_false, reduceIte]
      unfold balanceOf
      rw [hu1]
      by_cases h : u2.id = u2.refOwner <;> simp [h]

theorem referralStep_withdrawOf (st : Store) (e : String) (a : Rat) (b : Bool)
    (u2 ow : UserRow) (hu2 : userByEmail st e = some u2)
    (hro : u2.refOwner ≠ 0) (how : userById st u2.refOwner = some ow) :
    withdrawOf (referralStep st e a b) u2.refOwner =
      some (ow.withdrawable + (if b then a * (4 / 100) else -(a * (4 / 100)))) := by
  unfold referralStep handle_referral_and_bonus
  rw [hu2]
  simp only [hro, ne_eq, not_false_eq_true, if_true, reduceIte]
  rw [how]
  simp only
  by_cases hts : u2.totalSpend > 10
  · simp only [hts, if_true, reduceIte]
    rw [uub_withdrawOf]
    exact withdrawOf_setWithdraw_self st u2.refOwner _ ow how
  · simp only [hts, if_false, reduceIte]
    exact withdrawOf_setWithdraw_self st u2.refOwner _ ow how

theorem userByEmail_setSold (st : Store) (sid : Int) (v : Int) (e : String) :
    userByEmail (setSoldById st sid v) e = userByEmail st e := rfl

theorem userById_setSold (st : Store) (sid : Int) (v : Int) (uid : Int) :
    userById (setSoldById st sid v) uid = userById st uid := rfl

theorem userByEmail_setOrder (st : Store) (oid : Int) (amt : Rat) (e : String) :
    userByEmail (setOrderRefunded st oid amt) e = userByEmail st e := rfl

theorem userById_setOrder (st : Store) (oid : Int) (amt : Rat) (uid : Int) :
    userById (setOrderRefunded st oid amt) uid = userById st uid := rfl

theorem soldOf_setSpend (st : Store) (e : String) (v : Rat) (sid : Int) :
    soldOf (setSpendByEmail st e v) sid = soldOf st sid := rfl

theorem soldOf_setBalance (st : Store) (e : String) (v : Rat) (sid : Int) :
    soldOf (setBalanceByEmail st e v) sid = soldOf st sid := rfl

theorem soldOf_setOrder (st : Store) (oid : Int) (amt : Rat) (sid : Int) :
    soldOf (setOrderRefunded st oid amt) sid = soldOf st sid := rfl

theorem spendOf_setOrder (st : Store) (oid : Int) (amt : Rat) (e : String) :
    spendOf (setOrderRefunded st oid amt) e = spendOf st e := rfl

theorem spendOf_setSold (st : Store) (sid : Int) (v : Int) (e : String) :
    spendOf (setSoldById st sid v) e = spendOf st e := rfl

theorem balanceOf_setSold (st : Store) (sid : Int) (v : Int) (e : String) :
    balanceOf (setSoldById st sid v) e = balanceOf st e := rfl

theorem balanceOf_setOrder (st : Store) (oid : Int) (amt : Rat) (e : String) :
    balanceOf (setOrderRefunded st oid amt) e = balanceOf st e := rfl

theorem withdrawOf_setSold (st : Store) (sid : Int) (v : Int) (uid : Int) :
    withdrawOf (setSoldById st sid v) uid = withdrawOf st uid := rfl

theorem withdrawOf_setOrder (st : Store) (oid : Int) (amt : Rat) (uid : Int) :
    withdrawOf (setOrderRefunded st oid amt) uid = withdrawOf st uid := rfl

theorem orderById_setSold (st : Store) (sid : Int) (v : Int) (oid : Int) :
    orderById (setSoldById st sid v) oid = orderById st oid := rfl

theorem orderById_setSpend (st : Store) (e : String) (v : Rat) (oid : Int) :
    orderById (setSpendByEmail st e v) oid = orderById st oid := rfl

theorem orderById_setBalance (st : Store) (e : String) (v : Rat) (oid : Int) :
    orderById (setBalanceByEmail st e v) oid = orderById st oid := rfl

theorem spendOf_setSpend_self (st : Store) (e : String) (v : Rat) (u : UserRow)
    (hu : userByEmail st e = some u) :
    spendOf (setSpendByEmail st e v) e = some v := by
  unfold spendOf
  rw [userByEmail_setSpend_self st e v u hu]
  rfl

/-- Reduction of the Completed branch under its inner guard, with the user
row known. -/
theorem completedBranch_eq (st : Store) (o : OrderRow) (svc : ServiceRow) (u : UserRow)
    (hemail : o.email ≠ "") (hsp : effSellPrice o ≠ 0)
    (hu : userByEmail st o.email = some u) :
    completedBranch st o svc =
      referralStep
        (setSpendByEmail (setSoldById st svc.id (svc.totalSoldQty + o.quantity)) o.email
          (u.totalSpend + effSellPrice o))
        o.email (effSellPrice o) true := by
  unfold completedBranch
  have hu1 : userByEmail (setSoldById st svc.id (svc.totalSoldQty + o.quantity)) o.email =
      some u := hu
  simp only [if_pos (And.intro hemail hsp), hu1]

theorem completedBranch_soldOf (st : Store) (o : OrderRow) (svc : ServiceRow) (u : UserRow)
    (hsid : serviceById st svc.id = some svc)
    (hemail : o.email ≠ "") (hsp : effSellPrice o ≠ 0)
    (hu : userByEmail st o.email = some u) :
    soldOf (completedBranch st o svc) svc.id = some (svc.totalSoldQty + o.quantity) := by
  rw [completedBranch_eq st o svc u hemail hsp hu]
  rw [(referralStep_usersMapped _ _ _ _).soldOf_eq, soldOf_setSpend]
  exact soldOf_setSold_self st svc.id _ svc hsid

theorem completedBranch_spendOf (st : Store) (o : OrderRow) (svc : ServiceRow) (u : UserRow)
    (hemail : o.email ≠ "") (hsp : effSellPrice o ≠ 0)
    (hu : userByEmail st o.email = some u) :
    spendOf (completedBranch st o svc) o.email = some (u.totalSpend + effSellPrice o) := by
  rw [completedBranch_eq st o svc u hemail hsp hu]
  rw [(referralStep_usersMapped _ _ _ _).spendOf_eq]
  exact spendOf_setSpend_self _ o.email _ u hu

theorem completedBranch_orders (st : Store) (o : OrderRow) (svc : ServiceRow) :
    (completedBranch st o svc).orders = st.orders := by
  unfold completedBranch
  dsimp only
  split
  · cases hu : userByEmail (setSoldById st svc.id (svc.totalSoldQty + o.quantity)) o.email with
    | none =>
        rw [(referralStep_usersMapped _ _ _ _).orders_eq]
        rfl
    | some u =>
        rw [(referralStep_usersMapped _ _ _ _).orders_eq]
        rfl
  · rw [(referralStep_usersMapped _ _ _ _).orders_eq]
    rfl

theorem completedBranch_statusOf (st : Store) (o : OrderRow) (svc : ServiceRow) (oid : Int) :
    statusOf (completedBranch st o svc) oid = statusOf st oid := by
  unfold statusOf orderById
  rw [completedBranch_orders]

theorem completedBranch_refundOf (st : Store) (o : OrderRow) (svc : ServiceRow) (oid : Int) :
    refundOf (completedBranch st o svc) oid = refundOf st oid := by
  unfold refundOf orderById
  rw [completedBranch_orders]

theorem completedBranch_balanceOf (st : Store) (o : OrderRow) (svc : ServiceRow) (u : UserRow)
    (hemail : o.email ≠ "") (hsp : effSellPrice o ≠ 0)
    (hu : userByEmail st o.email = some u)
    (how : u.refOwner ≠ 0 → (userById st u.refOwner).isSome) :
    balanceOf (completedBranch st o svc) o.email =
      some (u.balance +
        (if u.totalSpend + effSellPrice o > 10 then effSellPrice o * (1 / 100) else 0)) := by
  rw [completedBranch_eq st o svc u hemail hsp hu]
  have hu1 : userByEmail (setSoldById st svc.id (svc.totalSoldQty + o.quantity)) o.email =
      some u := hu
  have hu2 := userByEmail_setSpend_self
    (setSoldById st svc.id (svc.totalSoldQty + o.quantity)) o.email
    (u.totalSpend + effSellPrice o) u hu1
  have how2 : ({ u with totalSpend := u.totalSpend + effSellPrice o } : UserRow).refOwner ≠ 0 →
      (userById
        (setSpendByEmail (setSoldById st svc.id (svc.totalSoldQty + o.quantity)) o.email
          (u.totalSpend + effSellPrice o))
        ({ u with totalSpend := u.totalSpend + effSellPrice o } : UserRow).refOwner).isSome := by
    intro h
    rw [userById_setSpend]
    have := how h
    cases hq : userById st u.refOwner with
    | none => rw [hq] at this; simp at this
    | some w => simp [userById_setSold, hq]
  rw [referralStep_balanceOf _ o.email (effSellPrice o) true _ hu2 how2]
  simp

theorem completedBranch_withdrawOf (st : Store) (o : OrderRow) (svc : ServiceRow)
    (u ow : UserRow)
    (hemail : o.email ≠ "") (hsp : effSellPrice o ≠ 0)
    (hu : userByEmail st o.email = some u)
    (hro : u.refOwner ≠ 0) (how : userById st u.refOwner = some ow) :
    withdrawOf (completedBranch st o svc) u.refOwner =
      some (ow.withdrawable + effSellPrice o * (4 / 100)) := by
  rw [completedBranch_eq st o svc u hemail hsp hu]
  have hu1 : userByEmail (setSoldById st svc.id (svc.totalSoldQty + o.quantity)) o.email =
      some u := hu
  have hu2 := userByEmail_setSpend_self
    (setSoldById st svc.id (svc.totalSoldQty + o.quantity)) o.email
    (u.totalSpend + effSellPrice o) u hu1
  have how2 : userById
      (setSpendByEmail (setSoldById st svc.id (svc.totalSoldQty + o.quantity)) o.email
        (u.totalSpend + effSellPrice o)) u.refOwner =
      some (if ow.email == o.email then
        { ow with totalSpend := u.totalSpend + effSellPrice o } else ow) := by
    rw [userById_setSpend]
    have hq : userById (setSoldById st svc.id (svc.totalSoldQty + o.quantity)) u.refOwner =
        some ow := how
    rw [hq]
    rfl
  have hres := referralStep_withdrawOf _ o.email (effSellPrice o) true _ _ hu2 hro how2
  rw [hres]
  by_cases h : ow.email = o.email <;> simp [h]

theorem userById_isSome_setSpend (st : Store) (e : String) (v : Rat) (uid : Int) :
    (userById (setSpendByEmail st e v) uid).isSome = (userById st uid).isSome := by
  rw [userById_setSpend]
  cases h : userById st uid <;> simp

theorem userById_isSome_setBalance (st : Store) (e : String) (v : Rat) (uid : Int) :
    (userById (setBalanceByEmail st e v) uid).isSome = (userById st uid).isSome := by
  rw [userById_setBalance]
  cases h : userById st uid <;> simp

/-- Reduction of the Completed-to-Partial/Canceled branch under its inner
guard `email and qty and sell_price`, with the user row known. -/
theorem refundBranch_eq (st : Store) (o : OrderRow) (svc : ServiceRow) (u : UserRow)
    (hemail : o.email ≠ "") (hqty : o.quantity ≠ 0) (hsp : effSellPrice o ≠ 0)
    (hu : userByEmail st o.email = some u) :
    refundBranch st o svc =
      referralStep
        (setOrderRefunded
          (setBalanceByEmail
            (setSpendByEmail (setSoldById st svc.id (max 0 (svc.totalSoldQty - o.quantity)))
              o.email (max 0 (u.totalSpend - refundCompleted o)))
            o.email (u.balance + refundCompleted o))
          o.id (refundCompleted o))
        o.email (refundCompleted o) false := by
  unfold refundBranch
  dsimp only
  rw [if_pos (And.intro hemail (And.intro hqty hsp))]
  have hu1 : userByEmail (setSoldById st svc.id (max 0 (svc.totalSoldQty - o.quantity)))
      o.email = some u := hu
  rw [hu1]
  unfold update_user_balance
  rw [userByEmail_setSpend_self _ o.email _ u hu1]

/-- When the inner guard fails, the Completed-to-Partial/Canceled branch
only decrements the sold counter. -/
theorem refundBranch_noGuard (st : Store) (o : OrderRow) (svc : ServiceRow)
    (hng : ¬(o.email ≠ "" ∧ o.quantity ≠ 0 ∧ effSellPrice o ≠ 0)) :
    refundBranch st o svc = setSoldById st svc.id (max 0 (svc.totalSoldQty - o.quantity)) := by
  unfold refundBranch
  dsimp only
  rw [if_neg hng]

theorem refundBranch_soldOf (st : Store) (o : OrderRow) (svc : ServiceRow) (u : UserRow)
    (hsid : serviceById st svc.id = some svc)
    (hemail : o.email ≠ "") (hqty : o.quantity ≠ 0) (hsp : effSellPrice o ≠ 0)
    (hu : userByEmail st o.email = some u) :
    soldOf (refundBranch st o svc) svc.id = some (max 0 (svc.totalSoldQty - o.quantity)) := by
  rw [refundBranch_eq st o svc u hemail hqty hsp hu]
  rw [(referralStep_usersMapped _ _ _ _).soldOf_eq, soldOf_setOrder, soldOf_setBalance,
    soldOf_setSpend]
  exact soldOf_setSold_self st svc.id _ svc hsid

theorem refundBranch_spendOf (st : Store) (o : OrderRow) (svc : ServiceRow) (u : UserRow)
    (hemail : o.email ≠ "") (hqty : o.quantity ≠ 0) (hsp : effSellPrice o ≠ 0)
    (hu : userByEmail st o.email = some u) :
    spendOf (refundBranch st o svc) o.email =
      some (max 0 (u.totalSpend - refundCompleted o)) := by
  rw [refundBranch_eq st o svc u hemail hqty hsp hu]
  rw [(referralStep_usersMapped _ _ _ _).spendOf_eq, spendOf_setOrder]
  have hu1 : userByEmail (setSoldById st svc.id (max 0 (svc.totalSoldQty - o.quantity)))
      o.email = some u := hu
  rw [spendOf_setBalance]
  exact spendOf_setSpend_self _ o.email _ u hu1

theorem refundBranch_statusOf (st : Store) (o : OrderRow) (svc : ServiceRow) (u : UserRow)
    (ord : OrderRow)
    (horder : orderById st o.id = some ord)
    (hemail : o.email ≠ "") (hqty : o.quantity ≠ 0) (hsp : effSellPrice o ≠ 0)
    (hu : userByEmail st o.email = some u) :
    statusOf (refundBranch st o svc) o.id = some "Refunded" := by
  rw [refundBranch_eq st o svc u hemail hqty hsp hu]
  rw [(referralStep_usersMapped _ _ _ _).statusOf_eq]
  have ho3 : orderById
      (setBalanceByEmail
        (setSpendByEmail (setSoldById st svc.id (max 0 (svc.totalSoldQty - o.quantity)))
          o.email (max 0 (u.totalSpend - refundCompleted o)))
        o.email (u.balance + refundCompleted o)) o.id = some ord := by
    rw [orderById_setBalance, orderById_setSpend, orderById_setSold]
    exact horder
  exact statusOf_setOrder_self _ o.id _ ord ho3

theorem refundBranch_refundOf (st : Store) (o : OrderRow) (svc : ServiceRow) (u : UserRow)
    (ord : OrderRow)
    (horder : orderById st o.id = some ord)
    (hemail : o.email ≠ "") (hqty : o.quantity ≠ 0) (hsp : effSellPrice o ≠ 0)
    (hu : userByEmail st o.email = some u) :
    refundOf (refundBranch st o svc) o.id = some (some (refundCompleted o)) := by
  rw [refundBranch_eq st o svc u hemail hqty hsp hu]
  rw [(referralStep_usersMapped _ _ _ _).refundOf_eq]
  have ho3 : orderById
      (setBalanceByEmail
        (setSpendByEmail (setSoldById st svc.id (max 0 (svc.totalSoldQty - o.quantity)))
          o.email (max 0 (u.totalSpend - refundCompleted o)))
        o.email (u.balance + refundCompleted o)) o.id = some ord := by
    rw [orderById_setBalance, orderById_setSpend, orderById_setSold]
    exact horder
  exact refundOf_setOrder_self _ o.id _ ord ho3

theorem refundBranch_balanceOf (st : Store) (o : OrderRow) (svc : ServiceRow) (u : UserRow)
    (hemail : o.email ≠ "") (hqty : o.quantity ≠ 0) (hsp : effSellPrice o ≠ 0)
    (hu : userByEmail st o.email = some u)
    (how : u.refOwner ≠ 0 → (userById st u.refOwner).isSome) :
    balanceOf (refundBranch st o svc) o.email =
      some (u.balance + refundCompleted o +
        (if max 0 (u.totalSpend - refundCompleted o) > 10
         then -(refundCompleted o * (1 / 100)) else 0)) := by
  rw [refundBranch_eq st o svc u hemail hqty hsp hu]
  have hu1 : userByEmail (setSoldById st svc.id (max 0 (svc.totalSoldQty - o.quantity)))
      o.email = some u := hu
  have hu2 := userByEmail_setSpend_self
    (setSoldById st svc.id (max 0 (svc.totalSoldQty - o.quantity))) o.email
    (max 0 (u.totalSpend - refundCompleted o)) u hu1
  have hu3 := userByEmail_setBalance_self _ o.email (u.balance + refundCompleted o) _ hu2
  have hu4 : userByEmail
      (setOrderRefunded
        (setBalanceByEmail
          (setSpendByEmail (setSoldById st svc.id (max 0 (svc.totalSoldQty - o.quantity)))
            o.email (max 0 (u.totalSpend - refundCompleted o)))
          o.email (u.balance + refundCompleted o))
        o.id (refundCompleted o)) o.email =
      some { u with totalSpend := max 0 (u.totalSpend - refundCompleted o),
                    balance := u.balance + refundCompleted o } := by
    rw [userByEmail_setOrder]
    exact hu3
  have how4 : ({ u with totalSpend := max 0 (u.totalSpend - refundCompleted o),
                        balance := u.balance + refundCompleted o } : UserRow).refOwner ≠ 0 →
      (userById
        (setOrderRefunded
          (setBalanceByEmail
            (setSpendByEmail (setSoldById st svc.id (max 0 (svc.totalSoldQty - o.quantity)))
              o.email (max 0 (u.totalSpend - refundCompleted o)))
            o.email (u.balance + refundCompleted o))
          o.id (refundCompleted o))
        ({ u with totalSpend := max 0 (u.totalSpend - refundCompleted o),
                  balance := u.balance + refundCompleted o
         } : UserRow).refOwner).isSome := by
    intro h
    rw [userById_setOrder, userById_isSome_setBalance, userById_isSome_setSpend,
      userById_setSold]
    exact how h
  rw [referralStep_balanceOf _ o.email (refundCompleted o) false _ hu4 how4]
  simp

theorem refundBranch_withdrawOf (st : Store) (o : OrderRow) (svc : ServiceRow)
    (u ow : UserRow)
    (hemail : o.email ≠ "") (hqty : o.quantity ≠ 0) (hsp : effSellPrice o ≠ 0)
    (hu : userByEmail st o.email = some u)
    (hro : u.refOwner ≠ 0) (how : userById st u.refOwner = some ow) :
    withdrawOf (refundBranch st o svc) u.refOwner =
      some (ow.withdrawable - refundCompleted o * (4 / 100)) := by
  rw [refundBranch_eq st o svc u hemail hqty hsp hu]
  have hu1 : userByEmail (setSoldById st svc.id (max 0 (svc.totalSoldQty - o.quantity)))
      o.email = some u := hu
  have hu2 := userByEmail_setSpend_self
    (setSoldById st svc.id (max 0 (svc.totalSoldQty - o.quantity))) o.email
    (max 0 (u.totalSpend - refundCompleted o)) u hu1
  have hu3 := userByEmail_setBalance_self _ o.email (u.balance + refundCompleted o) _ hu2
  have hu4 : userByEmail
      (setOrderRefunded
        (setBalanceByEmail
          (setSpendByEmail (setSoldById st svc.id (max 0 (svc.totalSoldQty - o.quantity)))
            o.email (max 0 (u.totalSpend - refundCompleted o)))
          o.email (u.balance + refundCompleted o))
        o.id (refundCompleted o)) o.email =
      some { u with totalSpend := max 0 (u.totalSpend - refundCompleted o),
                    balance := u.balance + refundCompleted o } := by
    rw [userByEmail_setOrder]
    exact hu3
  have how1 : userById (setSoldById st svc.id (max 0 (svc.totalSoldQty - o.quantity)))
      u.refOwner = some ow := how
  have hofS : userById
      (setSpendByEmail (setSoldById st svc.id (max 0 (svc.totalSoldQty - o.quantity)))
        o.email (max 0 (u.totalSpend - refundCompleted o))) u.refOwner =
      some (if ow.email == o.email
        then { ow with totalSpend := max 0 (u.totalSpend - refundCompleted o) } else ow) := by
    rw [userById_setSpend, how1]
    rfl
  have hofB : userById
      (setOrderRefunded
        (setBalanceByEmail
          (setSpendByEmail (setSoldById st svc.id (max 0 (svc.totalSoldQty - o.quantity)))
            o.email (max 0 (u.totalSpend - refundCompleted o)))
          o.email (u.balance + refundCompleted o))
        o.id (refundCompleted o)) u.refOwner =
      some (if (if ow.email == o.email
          then { ow with totalSpend := max 0 (u.totalSpend - refundCompleted o) } else ow).email
          == o.email
        then { (if ow.email == o.email
            then { ow with totalSpend := max 0 (u.totalSpend - refundCompleted o) } else ow) with
              balance := u.balance + refundCompleted o }
        else (if ow.email == o.email
            then { ow with totalSpend := max 0 (u.totalSpend - refundCompleted o) } else ow)) := by
    rw [userById_setOrder, userById_setBalance, hofS]
    rfl
  have hres := referralStep_withdrawOf _ o.email (refundCompleted o) false _ _ hu4 hro hofB
  rw [hres]
  by_cases h : ow.email = o.email <;> simp [h, sub_eq_add_neg]

/-- Reduction of the never-Completed Partial/Canceled branch under its guard
`qty > 0 and sell_price > 0`, with the user row known. -/
theorem partialBranch_eq (st : Store) (o : OrderRow) (svc : ServiceRow) (u : UserRow)
    (hq : 0 < o.quantity) (hsp : 0 < effSellPrice o)
    (hu : userByEmail st o.email = some u) :
    partialBranch st o svc =
      setOrderRefunded
        (setBalanceByEmail
          (setSpendByEmail
            (setSoldById st svc.id (svc.totalSoldQty + max 0 (o.quantity - o.remain)))
            o.email (u.totalSpend + spendAddedPartial o))
          o.email (u.balance + refundPartial o))
        o.id (refundPartial o) := by
  unfold partialBranch
  dsimp only
  rw [if_pos (And.intro hq hsp)]
  have hu1 : userByEmail
      (setSoldById st svc.id (svc.totalSoldQty + max 0 (o.quantity - o.remain)))
      o.email = some u := hu
  rw [hu1]
  unfold update_user_balance
  rw [userByEmail_setSpend_self _ o.email _ u hu1]

theorem partialBranch_noGuard (st : Store) (o : OrderRow) (svc : ServiceRow)
    (hng : ¬(0 < o.quantity ∧ 0 < effSellPrice o)) :
    partialBranch st o svc =
      setSoldById st svc.id (svc.totalSoldQty + max 0 (o.quantity - o.remain)) := by
  unfold partialBranch
  dsimp only
  rw [if_neg hng]

theorem partialBranch_soldOf (st : Store) (o : OrderRow) (svc : ServiceRow) (u : UserRow)
    (hsid : serviceById st svc.id = some svc)
    (hq : 0 < o.quantity) (hsp : 0 < effSellPrice o)
    (hu : userByEmail st o.email = some u) :
    soldOf (partialBranch st o svc) svc.id =
      some (svc.totalSoldQty + max 0 (o.quantity - o.remain)) := by
  rw [partialBranch_eq st o svc u hq hsp hu]
  rw [soldOf_setOrder, soldOf_setBalance, soldOf_setSpend]
  exact soldOf_setSold_self st svc.id _ svc hsid

theorem partialBranch_spendOf (st : Store) (o : OrderRow) (svc : ServiceRow) (u : UserRow)
    (hq : 0 < o.quantity) (hsp : 0 < effSellPrice o)
    (hu : userByEmail st o.email = some u) :
    spendOf (partialBranch st o svc) o.email =
      some (u.totalSpend + spendAddedPartial o) := by
  rw [partialBranch_eq st o svc u hq hsp hu]
  have hu1 : userByEmail
      (setSoldById st svc.id (svc.totalSoldQty + max 0 (o.quantity - o.remain)))
      o.email = some u := hu
  rw [spendOf_setOrder, spendOf_setBalance]
  exact spendOf_setSpend_self _ o.email _ u hu1

theorem partialBranch_balanceOf (st : Store) (o : OrderRow) (svc : ServiceRow) (u : UserRow)
    (hq : 0 < o.quantity) (hsp : 0 < effSellPrice o)
    (hu : userByEmail st o.email = some u) :
    balanceOf (partialBranch st o svc) o.email =
      some (u.balance + refundPartial o) := by
  rw [partialBranch_eq st o svc u hq hsp hu]
  have hu1 : userByEmail
      (setSoldById st svc.id (svc.totalSoldQty + max 0 (o.quantity - o.remain)))
      o.email = some u := hu
  have hu2 := userByEmail_setSpend_self
    (setSoldById st svc.id (svc.totalSoldQty + max 0 (o.quantity - o.remain))) o.email
    (u.totalSpend + spendAddedPartial o) u hu1
  rw [balanceOf_setOrder]
  unfold balanceOf
  rw [userByEmail_setBalance_self _ o.email (u.balance + refundPartial o) _ hu2]
  rfl

theorem partialBranch_statusOf (st : Store) (o : OrderRow) (svc : ServiceRow) (u : UserRow)
    (ord : OrderRow) (horder : orderById st o.id = some ord)
    (hq : 0 < o.quantity) (hsp : 0 < effSellPrice o)
    (hu : userByEmail st o.email = some u) :
    statusOf (partialBranch st o svc) o.id = some "Refunded" := by
  rw [partialBranch_eq st o svc u hq hsp hu]
  have ho3 : orderById
      (setBalanceByEmail
        (setSpendByEmail
          (setSoldById st svc.id (svc.totalSoldQty + max 0 (o.quantity - o.remain)))
          o.email (u.totalSpend + spendAddedPartial o))
        o.email (u.balance + refundPartial o)) o.id = some ord := by
    rw [orderById_setBalance, orderById_setSpend, orderById_setSold]
    exact horder
  exact statusOf_setOrder_self _ o.id _ ord ho3

theorem partialBranch_refundOf (st : Store) (o : OrderRow) (svc : ServiceRow) (u : UserRow)
    (ord : OrderRow) (horder : orderById st o.id = some ord)
    (hq : 0 < o.quantity) (hsp : 0 < effSellPrice o)
    (hu : userByEmail st o.email = some u) :
    refundOf (partialBranch st o svc) o.id = some (some (refundPartial o)) := by
  rw [partialBranch_eq st o svc u hq hsp hu]
  have ho3 : orderById
      (setBalanceByEmail
        (setSpendByEmail
          (setSoldById st svc.id (svc.totalSoldQty + max 0 (o.quantity - o.remain)))
          o.email (u.totalSpend + spendAddedPartial o))
        o.email (u.balance + refundPartial o)) o.id = some ord := by
    rw [orderById_setBalance, orderById_setSpend, orderById_setSold]
    exact horder
  exact refundOf_setOrder_self _ o.id _ ord ho3

theorem adjust_eq_completed (st : Store) (o : OrderRow) (svc : ServiceRow)
    (old_status new_status : String)
    (hsvc : find_service_for_order st o = some svc)
    (h1 : lowerStr new_status = "completed") (h2 : lowerStr old_status ≠ "completed") :
    adjust_service_qty_on_status_change st o old_status new_status =
      completedBranch st o svc := by
  unfold adjust_service_qty_on_status_change
  dsimp only
  rw [hsvc]
  dsimp only
  rw [if_pos (And.intro h1 h2)]

theorem adjust_eq_refund (st : Store) (o : OrderRow) (svc : ServiceRow)
    (old_status new_status : String)
    (hsvc : find_service_for_order st o = some svc)
    (h1 : lowerStr old_status = "completed")
    (h2 : lowerStr new_status = "partial" ∨ lowerStr new_status = "canceled" ∨
      lowerStr new_status = "cancelled") :
    adjust_service_qty_on_status_change st o old_status new_status =
      refundBranch st o svc := by
  unfold adjust_service_qty_on_status_change
  dsimp only
  rw [hsvc]
  dsimp only
  have hn1 : ¬(lowerStr new_status = "completed" ∧ lowerStr old_status ≠ "completed") := by
    intro hcon
    exact hcon.2 h1
  rw [if_neg hn1, if_pos (And.intro h1 h2)]

theorem adjust_eq_partialCancel (st : Store) (o : OrderRow) (svc : ServiceRow)
    (old_status new_status : String)
    (hsvc : find_service_for_order st o = some svc)
    (h2 : lowerStr new_status = "partial" ∨ lowerStr new_status = "canceled" ∨
      lowerStr new_status = "cancelled")
    (h3 : ¬(lowerStr old_status = "completed" ∨ lowerStr old_status = "partial" ∨
      lowerStr old_status = "canceled" ∨ lowerStr old_status = "cancelled")) :
    adjust_service_qty_on_status_change st o old_status new_status =
      partialBranch st o svc := by
  unfold adjust_service_qty_on_status_change
  dsimp only
  rw [hsvc]
  dsimp only
  have hnc : lowerStr new_status ≠ "completed" := by
    rcases h2 with h | h | h <;> rw [h] <;> decide
  have hn1 : ¬(lowerStr new_status = "completed" ∧ lowerStr old_status ≠ "completed") := by
    intro hcon
    exact hnc hcon.1
  have hn2 : ¬(lowerStr old_status = "completed" ∧ (lowerStr new_status = "partial" ∨
      lowerStr new_status = "canceled" ∨ lowerStr new_status = "cancelled")) := by
    intro hcon
    exact h3 (Or.inl hcon.1)
  rw [if_neg hn1, if_neg hn2, if_pos (And.intro h2 h3)]

theorem adjust_noop (st : Store) (o : OrderRow) (old_status new_status : String)
    (hn1 : ¬(lowerStr new_status = "completed" ∧ lowerStr old_status ≠ "completed"))
    (hn2 : ¬(lowerStr old_status = "completed" ∧ (lowerStr new_status = "partial" ∨
      lowerStr new_status = "canceled" ∨ lowerStr new_status = "cancelled")))
    (hn3 : ¬((lowerStr new_status = "partial" ∨ lowerStr new_status = "canceled" ∨
      lowerStr new_status = "cancelled") ∧
      ¬(lowerStr old_status = "completed" ∨ lowerStr old_status = "partial" ∨
        lowerStr old_status = "canceled" ∨ lowerStr old_status = "cancelled"))) :
    adjust_service_qty_on_status_change st o old_status new_status = st := by
  unfold adjust_service_qty_on_status_change
  dsimp only
  cases hsvc : find_service_for_order st o with
  | none => rfl
  | some svc =>
      dsimp only
      rw [if_neg hn1, if_neg hn2, if_neg hn3]

theorem completedBranch_services (st : Store) (o : OrderRow) (svc : ServiceRow) :
    (completedBranch st o svc).services =
      (setSoldById st svc.id (svc.totalSoldQty + o.quantity)).services := by
  unfold completedBranch
  dsimp only
  split
  · cases hu : userByEmail (setSoldById st svc.id (svc.totalSoldQty + o.quantity)) o.email with
    | none => rw [(referralStep_usersMapped _ _ _ _).services_eq]
    | some u =>
        rw [(referralStep_usersMapped _ _ _ _).services_eq]
        rfl
  · rw [(referralStep_usersMapped _ _ _ _).services_eq]

theorem find_service_setSold (st : Store) (o : OrderRow) (sid : Int) (v : Int) :
    find_service_for_order (setSoldById st sid v) o =
      (find_service_for_order st o).map
        (fun s => if s.id == sid then { s with totalSoldQty := v } else s) := by
  unfold find_service_for_order setSoldById
  dsimp only
  by_cases hs : o.service ≠ ""
  · rw [if_pos hs, if_pos hs]
    rw [find?_map_of_pres _ _ _
      (fun a => by by_cases h : a.id = sid <;> simp [h])]
    cases h1 : st.services.find? (fun s => s.serviceName == o.service) with
    | some r => rfl
    | none =>
        dsimp only [Option.map]
        rw [find?_map_of_pres _ _ _
          (fun a => by by_cases h : a.id = sid <;> simp [h])]
        cases h2 : List.find?
          (fun s => strContainsB (lowerStr s.serviceName) (lowerStr o.service)) st.services <;> rfl
  · rw [if_neg hs, if_neg hs]
    rfl

theorem find_service_mem {st : Store} {o : OrderRow} {svc : ServiceRow}
    (h : find_service_for_order st o = some svc) : svc ∈ st.services := by
  unfold find_service_for_order at h
  by_cases hs : o.service ≠ ""
  · rw [if_pos hs] at h
    cases h1 : st.services.find? (fun s => s.serviceName == o.service) with
    | some r =>
        rw [h1] at h
        cases h
        exact List.mem_of_find?_eq_some h1
    | none =>
        rw [h1] at h
        exact List.mem_of_find?_eq_some h
  · rw [if_neg hs] at h
    cases h

theorem nonneg_of_usersMapped {st st' : Store} (h : UsersMapped st st')
    (hst : nonnegStore st) : nonnegStore st' := by
  obtain ⟨f, _, fs, _, fu, fsv, _⟩ := h
  constructor
  · rw [fsv]
    exact hst.1
  · rw [fu]
    intro u hu
    obtain ⟨a, ha, rfl⟩ := List.mem_map.mp hu
    rw [fs a]
    exact hst.2 a ha

theorem nonneg_setSold (st : Store) (sid : Int) (v : Int)
    (hst : nonnegStore st) (hv : 0 ≤ v) : nonnegStore (setSoldById st sid v) := by
  constructor
  · intro s hsmem
    obtain ⟨a, ha, rfl⟩ := List.mem_map.mp hsmem
    by_cases h : a.id = sid
    · simp [h]
      exact hv
    · simp [h]
      exact hst.1 a ha
  · exact hst.2

theorem nonneg_setSpend (st : Store) (e : String) (v : Rat)
    (hst : nonnegStore st) (hv : 0 ≤ v) : nonnegStore (setSpendByEmail st e v) := by
  constructor
  · exact hst.1
  · intro u hu
    obtain ⟨a, ha, rfl⟩ := List.mem_map.mp hu
    by_cases h : a.email = e
    · simp [h]
      exact hv
    · simp [h]
      exact hst.2 a ha

theorem nonneg_setOrder (st : Store) (oid : Int) (amt : Rat)
    (hst : nonnegStore st) : nonnegStore (setOrderRefunded st oid amt) :=
  ⟨hst.1, hst.2⟩

theorem nonneg_uub (st : Store) (e : String) (a : Rat)
    (hst : nonnegStore st) : nonnegStore ((update_user_balance st e a).1) :=
  nonneg_of_usersMapped (UsersMapped.uub st e a) hst

theorem nonneg_referralStep (st : Store) (e : String) (a : Rat) (b : Bool)
    (hst : nonnegStore st) : nonnegStore (referralStep st e a b) :=
  nonneg_of_usersMapped (referralStep_usersMapped st e a b) hst

theorem effSellPrice_nonneg {o : OrderRow} (hwf : wfOrder o) : 0 ≤ effSellPrice o := by
  unfold effSellPrice
  by_cases h : o.sellCharge ≠ 0
  · rw [if_pos h]
    exact hwf.2.2.2.1
  · rw [if_neg h]
    exact hwf.2.2.2.2

theorem spendAddedPartial_nonneg {o : OrderRow} (hwf : wfOrder o)
    (hq : 0 < o.quantity) (hsp : 0 < effSellPrice o) : 0 ≤ spendAddedPartial o := by
  unfold spendAddedPartial refundPartial
  have hqr : (0 : Rat) < (o.quantity : Rat) := by exact_mod_cast hq
  have hrr : (o.remain : Rat) ≤ (o.quantity : Rat) := by exact_mod_cast hwf.2.2.1
  have hkey : effSellPrice o / (o.quantity : Rat) * (o.remain : Rat) ≤ effSellPrice o := by
    calc effSellPrice o / (o.quantity : Rat) * (o.remain : Rat)
        ≤ effSellPrice o / (o.quantity : Rat) * (o.quantity : Rat) :=
          mul_le_mul_of_nonneg_left hrr (div_nonneg hsp.le hqr.le)
      _ = effSellPrice o := div_mul_cancel₀ _ hqr.ne.symm
  linarith

theorem nonneg_completedBranch (st : Store) (o : OrderRow) (svc : ServiceRow)
    (hst : nonnegStore st) (hq : 0 ≤ o.quantity) (hsell : 0 ≤ effSellPrice o)
    (hmem : svc ∈ st.services) : nonnegStore (completedBranch st o svc) := by
  unfold completedBranch
  dsimp only
  have h1 : nonnegStore (setSoldById st svc.id (svc.totalSoldQty + o.quantity)) :=
    nonneg_setSold st svc.id _ hst (by have := hst.1 svc hmem; omega)
  apply nonneg_referralStep
  split
  · cases hu : userByEmail (setSoldById st svc.id (svc.totalSoldQty + o.quantity)) o.email with
    | none => exact h1
    | some u =>
        apply nonneg_setSpend _ _ _ h1
        have humem : u ∈ st.users := List.mem_of_find?_eq_some hu
        have := hst.2 u humem
        linarith
  · exact h1

theorem nonneg_refundBranch (st : Store) (o : OrderRow) (svc : ServiceRow)
    (hst : nonnegStore st) : nonnegStore (refundBranch st o svc) := by
  unfold refundBranch
  dsimp only
  have h1 : nonnegStore (setSoldById st svc.id (max 0 (svc.totalSoldQty - o.quantity))) :=
    nonneg_setSold st svc.id _ hst (le_max_left 0 _)
  split
  · apply nonneg_referralStep
    apply nonneg_setOrder
    apply nonneg_uub
    cases hu : userByEmail (setSoldById st svc.id (max 0 (svc.totalSoldQty - o.quantity)))
        o.email with
    | none => exact h1
    | some u => exact nonneg_setSpend _ _ _ h1 (le_max_left 0 _)
  · exact h1

theorem nonneg_partialBranch (st : Store) (o : OrderRow) (svc : ServiceRow)
    (hst : nonnegStore st) (hwf : wfOrder o)
    (hmem : svc ∈ st.services) : nonnegStore (partialBranch st o svc) := by
  unfold partialBranch
  dsimp only
  have h1 : nonnegStore
      (setSoldById st svc.id (svc.totalSoldQty + max 0 (o.quantity - o.remain))) :=
    nonneg_setSold st svc.id _ hst
      (by have := hst.1 svc hmem; have := le_max_left 0 (o.quantity - o.remain); omega)
  split
  case isTrue hg =>
    apply nonneg_setOrder
    apply nonneg_uub
    cases hu : userByEmail
        (setSoldById st svc.id (svc.totalSoldQty + max 0 (o.quantity - o.remain)))
        o.email with
    | none => exact h1
    | some u =>
        apply nonneg_setSpend _ _ _ h1
        have humem : u ∈ st.users := List.mem_of_find?_eq_some hu
        have h2 := hst.2 u humem
        have h3 := spendAddedPartial_nonneg hwf hg.1 hg.2
        linarith
  case isFalse => exact h1

theorem nonneg_adjust (st : Store) (o : OrderRow) (a b : String)
    (hst : nonnegStore st) (hwf : wfOrder o) :
    nonnegStore (adjust_service_qty_on_status_change st o a b) := by
  cases hsvc : find_service_for_order st o with
  | none =>
      unfold adjust_service_qty_on_status_change
      dsimp only
      rw [hsvc]
      exact hst
  | some svc =>
      have hmem := find_service_mem hsvc
      by_cases g1 : lowerStr b = "completed" ∧ lowerStr a ≠ "completed"
      · rw [adjust_eq_completed st o svc a b hsvc g1.1 g1.2]
        exact nonneg_completedBranch st o svc hst hwf.1 (effSellPrice_nonneg hwf) hmem
      · by_cases g2 : lowerStr a = "completed" ∧ (lowerStr b = "partial" ∨
          lowerStr b = "canceled" ∨ lowerStr b = "cancelled")
        · rw [adjust_eq_refund st o svc a b hsvc g2.1 g2.2]
          exact nonneg_refundBranch st o svc hst
        · by_cases g3 : (lowerStr b = "partial" ∨ lowerStr b = "canceled" ∨
            lowerStr b = "cancelled") ∧ ¬(lowerStr a = "completed" ∨ lowerStr a = "partial" ∨
            lowerStr a = "canceled" ∨ lowerStr a = "cancelled")
          · rw [adjust_eq_partialCancel st o svc a b hsvc g3.1 g3.2]
            exact nonneg_partialBranch st o svc hst hwf hmem
          · rw [adjust_noop st o a b g1 g2 g3]
            exact hst

theorem nonneg_spendOf {st : Store} {e : String} {x : Rat}
    (hst : nonnegStore st) (h : spendOf st e = some x) : 0 ≤ x := by
  obtain ⟨u, hu, hx⟩ := exists_user_of_spendOf h
  have := hst.2 u (List.mem_of_find?_eq_some hu)
  linarith [hx ▸ this]

/-- C3: for a transition with old status ≠ Completed and new status
Completed, the reconciler adds `qty` to the service's sold counter; with an
email and a non-zero sell price it adds `sell_price` to the user's
`total_spend`; the referral/bonus credit is then computed on `sell_price`
with `add = true` (4 % of the sell price to the referral owner's
withdrawable balance when one exists, plus 1 % of the sell price to the
user's own balance when the user's total spend, as re-read after the
update, exceeds 10); no refund is issued and the order row is unchanged. -/
theorem spec2_C3 (st : Store) (o : OrderRow) (svc : ServiceRow) (u : UserRow)
    (old_status new_status : String)
    (h_new : lowerStr new_status = "completed")
    (h_old : lowerStr old_status ≠ "completed")
    (hsvc : find_service_for_order st o = some svc)
    (hsid : serviceById st svc.id = some svc)
    (hu : userByEmail st o.email = some u)
    (hemail : o.email ≠ "") (hsp : effSellPrice o ≠ 0)
    (how : u.refOwner ≠ 0 → (userById st u.refOwner).isSome) :
    soldOf (adjust_service_qty_on_status_change st o old_status new_status) svc.id =
      some (svc.totalSoldQty + o.quantity) ∧
    spendOf (adjust_service_qty_on_status_change st o old_status new_status) o.email =
      some (u.totalSpend + effSellPrice o) ∧
    balanceOf (adjust_service_qty_on_status_change st o old_status new_status) o.email =
      some (u.balance +
        (if u.totalSpend + effSellPrice o > 10 then effSellPrice o * (1 / 100) else 0)) ∧
    (∀ ow, u.refOwner ≠ 0 → userById st u.refOwner = some ow →
      withdrawOf (adjust_service_qty_on_status_change st o old_status new_status)
        u.refOwner = some (ow.withdrawable + effSellPrice o * (4 / 100))) ∧
    statusOf (adjust_service_qty_on_status_change st o old_status new_status) o.id =
      statusOf st o.id ∧
    refundOf (adjust_service_qty_on_status_change st o old_status new_status) o.id =
      refundOf st o.id := by
  rw [adjust_eq_completed st o svc old_status new_status hsvc h_new h_old]
  exact ⟨completedBranch_soldOf st o svc u hsid hemail hsp hu,
    completedBranch_spendOf st o svc u hemail hsp hu,
    completedBranch_balanceOf st o svc u hemail hsp hu how,
    fun ow hro howq => completedBranch_withdrawOf st o svc u ow hemail hsp hu hro howq,
    completedBranch_statusOf st o svc o.id,
    completedBranch_refundOf st o svc o.id⟩

/-- C3 witness: Processing → Completed on a 1000-unit, 20-dollar order of a
user with spend 20 and a referral owner. -/
theorem spec2_C3_witness :
    soldOf (adjust_service_qty_on_status_change stC3 oC3 "Processing" "Completed") svcA.id =
      some (svcA.totalSoldQty + oC3.quantity) ∧
    spendOf (adjust_service_qty_on_status_change stC3 oC3 "Processing" "Completed") oC3.email =
      some (userA.totalSpend + effSellPrice oC3) ∧
    withdrawOf (adjust_service_qty_on_status_change stC3 oC3 "Processing" "Completed")
      userA.refOwner = some (ownerA.withdrawable + effSellPrice oC3 * (4 / 100)) :=
  have h := spec2_C3 stC3 oC3 svcA userA "Processing" "Completed" (by decide) (by decide)
    (by decide) (by decide) (by decide) (by decide) (by decide) (fun _ => by decide)
  ⟨h.1, h.2.1, h.2.2.2.1 ownerA (by decide) (by decide)⟩

/-- C2: for a transition whose old status is none of Completed, Partial,
Canceled (among the canonical statuses) and whose new status is Partial or
Canceled, with `qty > 0` and `sell_price > 0`, the reconciler adds
`done_qty = max 0 (qty - remain)` to the service's sold counter, adds
`spend_added = sell_price - (sell_price / qty) * remain` to the user's
total spend, credits the balance by `refund = (sell_price / qty) * remain`,
and sets the order to Refunded with the refund amount stored. -/
theorem spec2_C2 (st : Store) (o : OrderRow) (svc : ServiceRow) (u : UserRow)
    (ord : OrderRow) (old_status new_status : String)
    (h_oldc : lowerStr old_status ∈ canonStatuses)
    (h_old3 : ¬(lowerStr old_status = "completed" ∨ lowerStr old_status = "partial" ∨
      lowerStr old_status = "canceled"))
    (h_new : lowerStr new_status = "partial" ∨ lowerStr new_status = "canceled")
    (hsvc : find_service_for_order st o = some svc)
    (hsid : serviceById st svc.id = some svc)
    (hu : userByEmail st o.email = some u)
    (horder : orderById st o.id = some ord)
    (hq : 0 < o.quantity) (hsp : 0 < effSellPrice o) :
    soldOf (adjust_service_qty_on_status_change st o old_status new_status) svc.id =
      some (svc.totalSoldQty + max 0 (o.quantity - o.remain)) ∧
    spendOf (adjust_service_qty_on_status_change st o old_status new_status) o.email =
      some (u.totalSpend + spendAddedPartial o) ∧
    balanceOf (adjust_service_qty_on_status_change st o old_status new_status) o.email =
      some (u.balance + refundPartial o) ∧
    statusOf (adjust_service_qty_on_status_change st o old_status new_status) o.id =
      some "Refunded" ∧
    refundOf (adjust_service_qty_on_status_change st o old_status new_status) o.id =
      some (some (refundPartial o)) := by
  have h2 : lowerStr new_status = "partial" ∨ lowerStr new_status = "canceled" ∨
      lowerStr new_status = "cancelled" :=
    h_new.elim Or.inl (fun h => Or.inr (Or.inl h))
  have h3 : ¬(lowerStr old_status = "completed" ∨ lowerStr old_status = "partial" ∨
      lowerStr old_status = "canceled" ∨ lowerStr old_status = "cancelled") := by
    intro hcon
    rcases hcon with h | h | h | h
    · exact h_old3 (Or.inl h)
    · exact h_old3 (Or.inr (Or.inl h))
    · exact h_old3 (Or.inr (Or.inr h))
    · rw [h] at h_oldc
      exact absurd h_oldc (by decide)
  rw [adjust_eq_partialCancel st o svc old_status new_status hsvc h2 h3]
  exact ⟨partialBranch_soldOf st o svc u hsid hq hsp hu,
    partialBranch_spendOf st o svc u hq hsp hu,
    partialBranch_balanceOf st o svc u hq hsp hu,
    partialBranch_statusOf st o svc u ord horder hq hsp hu,
    partialBranch_refundOf st o svc u ord horder hq hsp hu⟩

/-- C2 witness: Pending → Canceled on a never-completed 1000-unit order with
400 remaining and a 10-dollar sell price (scenario C: done 600, refund 4,
spend added 6). -/
theorem spec2_C2_witness :
    soldOf (adjust_service_qty_on_status_change stC2 oC2 "Pending" "Canceled") svcA.id =
      some (svcA.totalSoldQty + max 0 (oC2.quantity - oC2.remain)) ∧
    spendOf (adjust_service_qty_on_status_change stC2 oC2 "Pending" "Canceled") oC2.email =
      some (userB.totalSpend + spendAddedPartial oC2) ∧
    balanceOf (adjust_service_qty_on_status_change stC2 oC2 "Pending" "Canceled") oC2.email =
      some (userB.balance + refundPartial oC2) ∧
    statusOf (adjust_service_qty_on_status_change stC2 oC2 "Pending" "Canceled") oC2.id =
      some "Refunded" ∧
    spendAddedPartial oC2 = 6 ∧ refundPartial oC2 = 4 := by
  have h := spec2_C2 stC2 oC2 svcA userB oC2 "Pending" "Canceled" (by decide) (by decide)
    (Or.inr (by decide)) (by decide) (by decide) (by decide) (by decide) (by decide) (by decide)
  refine ⟨h.1, h.2.1, h.2.2.1, h.2.2.2.1, ?_, ?_⟩
  · norm_num [spendAddedPartial, refundPartial, effSellPrice, oC2]
  · norm_num [refundPartial, effSellPrice, oC2]

/-- C4: for every pair of statuses not matched by the three effect rules —
in particular whenever old and new coincide case-insensitively — the
reconciler leaves the store untouched, so re-invoking a transition with
old = new never double-counts sold quantity or balance.  The new status is
assumed to be one of the six canonical statuses (in any letter case). -/
theorem spec2_C4 (st : Store) (o : OrderRow) (old_status new_status : String)
    (h_canon : lowerStr new_status ∈ canonStatuses)
    (h : (¬(lowerStr new_status = "completed" ∧ lowerStr old_status ≠ "completed") ∧
          ¬(lowerStr old_status = "completed" ∧ (lowerStr new_status = "partial" ∨
            lowerStr new_status = "canceled")) ∧
          ¬((lowerStr new_status = "partial" ∨ lowerStr new_status = "canceled") ∧
            ¬(lowerStr old_status = "completed" ∨ lowerStr old_status = "partial" ∨
              lowerStr old_status = "canceled"))) ∨
        lowerStr old_status = lowerStr new_status) :
    adjust_service_qty_on_status_change st o old_status new_status = st := by
  have hcc : lowerStr new_status ≠ "cancelled" := by
    intro hx
    rw [hx] at h_canon
    exact absurd h_canon (by decide)
  rcases h with ⟨n1, n2, n3⟩ | heq
  · apply adjust_noop
    · exact n1
    · intro hcon
      obtain ⟨hc, h3⟩ := hcon
      rcases h3 with hn | hn | hn
      · exact n2 ⟨hc, Or.inl hn⟩
      · exact n2 ⟨hc, Or.inr hn⟩
      · exact hcc hn
    · intro hcon
      obtain ⟨h3, hold4⟩ := hcon
      have hold3 : ¬(lowerStr old_status = "completed" ∨ lowerStr old_status = "partial" ∨
          lowerStr old_status = "canceled") := by
        intro t
        apply hold4
        rcases t with a | a | a
        · exact Or.inl a
        · exact Or.inr (Or.inl a)
        · exact Or.inr (Or.inr (Or.inl a))
      rcases h3 with hn | hn | hn
      · exact n3 ⟨Or.inl hn, hold3⟩
      · exact n3 ⟨Or.inr hn, hold3⟩
      · exact hcc hn
  · apply adjust_noop
    · intro hcon
      exact hcon.2 (heq.trans hcon.1)
    · intro hcon
      obtain ⟨hc, h3⟩ := hcon
      rw [heq] at hc
      rcases h3 with hn | hn | hn <;> rw [hc] at hn <;> exact absurd hn (by decide)
    · intro hcon
      obtain ⟨h3, hold4⟩ := hcon
      apply hold4
      rcases h3 with hn | hn | hn
      · exact Or.inr (Or.inl (heq.trans hn))
      · exact Or.inr (Or.inr (Or.inl (heq.trans hn)))
      · exact Or.inr (Or.inr (Or.inr (heq.trans hn)))

/-- C4 witness: a repeated Completed → Completed report changes nothing. -/
theorem spec2_C4_witness :
    adjust_service_qty_on_status_change stC3 oC3 "Completed" "Completed" = stC3 :=
  spec2_C4 stC3 oC3 "Completed" "Completed" (by decide) (Or.inr (by decide))

/-- C10: in the Completed → Partial/Canceled reversal the sold-quantity
decrement (floored at zero) happens even when the order misses its email,
quantity or sell price; in that case no other write happens: the users and
orders tables are untouched, so no refund is recorded and the order never
becomes Refunded. -/
theorem spec2_C10 (st : Store) (o : OrderRow) (svc : ServiceRow)
    (old_status new_status : String)
    (h_old : lowerStr old_status = "completed")
    (h_new : lowerStr new_status = "partial" ∨ lowerStr new_status = "canceled")
    (hsvc : find_service_for_order st o = some svc)
    (hsid : serviceById st svc.id = some svc)
    (hmiss : o.email = "" ∨ o.quantity = 0 ∨ effSellPrice o = 0) :
    soldOf (adjust_service_qty_on_status_change st o old_status new_status) svc.id =
      some (max 0 (svc.totalSoldQty - o.quantity)) ∧
    (adjust_service_qty_on_status_change st o old_status new_status).users = st.users ∧
    (adjust_service_qty_on_status_change st o old_status new_status).orders = st.orders := by
  have h2 : lowerStr new_status = "partial" ∨ lowerStr new_status = "canceled" ∨
      lowerStr new_status = "cancelled" :=
    h_new.elim Or.inl (fun h => Or.inr (Or.inl h))
  rw [adjust_eq_refund st o svc old_status new_status hsvc h_old h2]
  have hng : ¬(o.email ≠ "" ∧ o.quantity ≠ 0 ∧ effSellPrice o ≠ 0) := by
    intro hcon
    rcases hmiss with h | h | h
    · exact hcon.1 h
    · exact hcon.2.1 h
    · exact hcon.2.2 h
  rw [refundBranch_noGuard st o svc hng]
  exact ⟨soldOf_setSold_self st svc.id _ svc hsid, rfl, rfl⟩

/-- C10 witness: a Completed → Canceled reversal of an order with sell price
zero decrements the sold counter but records no refund and leaves users and
orders untouched. -/
theorem spec2_C10_witness :
    soldOf (adjust_service_qty_on_status_change stC10 oC10 "Completed" "Canceled") svcA.id =
      some (max 0 (svcA.totalSoldQty - oC10.quantity)) ∧
    (adjust_service_qty_on_status_change stC10 oC10 "Completed" "Canceled").users =
      stC10.users ∧
    (adjust_service_qty_on_status_change stC10 oC10 "Completed" "Canceled").orders =
      stC10.orders :=
  spec2_C10 stC10 oC10 svcA "Completed" "Canceled" (by decide) (Or.inr (by decide))
    (by decide) (by decide) (Or.inr (Or.inr (by decide)))

/-- C1 counterexample: an order with quantity 0 but positive sell price,
present email, zero remaining units and an existing user.  The claim as
stated demands a refund of `sell_price` and an order status of Refunded;
the code's inner guard `email and qty and sell_price` fails on `qty = 0`,
so the order keeps its status and the balance is untouched. -/
theorem spec2_C1_counterexample :
    lowerStr "Completed" = "completed" ∧ lowerStr "Canceled" = "canceled" ∧
    oC1x.email ≠ "" ∧ 0 < effSellPrice oC1x ∧ oC1x.remain = 0 ∧
    userByEmail stC1x oC1x.email = some userB ∧
    statusOf (adjust_service_qty_on_status_change stC1x oC1x "Completed" "Canceled")
      oC1x.id = some "Completed" ∧
    balanceOf (adjust_service_qty_on_status_change stC1x oC1x "Completed" "Canceled")
      oC1x.email = some userB.balance := by
  decide

/-- C1 (amended with a non-zero quantity): for a transition Completed →
Partial/Canceled on an order with non-zero quantity, positive sell price
and present email, the reconciler floors the service sold counter at zero
after subtracting `qty`, computes `refund = sell_price` when `remain = 0`
and `(remain / qty) * sell_price` otherwise, lowers the user's total spend
by the refund floored at zero, credits the balance by the refund, marks the
order Refunded storing the refund, and reverses the referral/bonus on the
refund (4 % off the referral owner's withdrawable balance when one exists,
1 % off the user's balance when the re-read total spend exceeds 10). -/
theorem spec2_C1 (st : Store) (o : OrderRow) (svc : ServiceRow) (u : UserRow)
    (ord : OrderRow) (old_status new_status : String)
    (h_old : lowerStr old_status = "completed")
    (h_new : lowerStr new_status = "partial" ∨ lowerStr new_status = "canceled")
    (hsvc : find_service_for_order st o = some svc)
    (hsid : serviceById st svc.id = some svc)
    (horder : orderById st o.id = some ord)
    (hu : userByEmail st o.email = some u)
    (hemail : o.email ≠ "") (hqty : o.quantity ≠ 0) (hsp : 0 < effSellPrice o)
    (how : u.refOwner ≠ 0 → (userById st u.refOwner).isSome) :
    soldOf (adjust_service_qty_on_status_change st o old_status new_status) svc.id =
      some (max 0 (svc.totalSoldQty - o.quantity)) ∧
    spendOf (adjust_service_qty_on_status_change st o old_status new_status) o.email =
      some (max 0 (u.totalSpend - refundCompleted o)) ∧
    balanceOf (adjust_service_qty_on_status_change st o old_status new_status) o.email =
      some (u.balance + refundCompleted o +
        (if max 0 (u.totalSpend - refundCompleted o) > 10
         then -(refundCompleted o * (1 / 100)) else 0)) ∧
    statusOf (adjust_service_qty_on_status_change st o old_status new_status) o.id =
      some "Refunded" ∧
    refundOf (adjust_service_qty_on_status_change st o old_status new_status) o.id =
      some (some (refundCompleted o)) ∧
    (∀ ow, u.refOwner ≠ 0 → userById st u.refOwner = some ow →
      withdrawOf (adjust_service_qty_on_status_change st o old_status new_status)
        u.refOwner = some (ow.withdrawable - refundCompleted o * (4 / 100))) := by
  have h2 : lowerStr new_status = "partial" ∨ lowerStr new_status = "canceled" ∨
      lowerStr new_status = "cancelled" :=
    h_new.elim Or.inl (fun h => Or.inr (Or.inl h))
  rw [adjust_eq_refund st o svc old_status new_status hsvc h_old h2]
  exact ⟨refundBranch_soldOf st o svc u hsid hemail hqty hsp.ne' hu,
    refundBranch_spendOf st o svc u hemail hqty hsp.ne' hu,
    refundBranch_balanceOf st o svc u hemail hqty hsp.ne' hu how,
    refundBranch_statusOf st o svc u ord horder hemail hqty hsp.ne' hu,
    refundBranch_refundOf st o svc u ord horder hemail hqty hsp.ne' hu,
    fun ow hro howq => refundBranch_withdrawOf st o svc u ow hemail hqty hsp.ne' hu hro howq⟩

/-- C1 witness: Completed → Canceled with 1000 units, no remaining units and
a 10-dollar sell price on a user with spend 30 and a referral owner
(scenario B: full refund of 10). -/
theorem spec2_C1_witness :
    soldOf (adjust_service_qty_on_status_change stC1w oC1w "Completed" "Canceled") svcA.id =
      some (max 0 (svcA.totalSoldQty - oC1w.quantity)) ∧
    spendOf (adjust_service_qty_on_status_change stC1w oC1w "Completed" "Canceled")
      oC1w.email = some (max 0 (userC.totalSpend - refundCompleted oC1w)) ∧
    statusOf (adjust_service_qty_on_status_change stC1w oC1w "Completed" "Canceled")
      oC1w.id = some "Refunded" ∧
    refundOf (adjust_service_qty_on_status_change stC1w oC1w "Completed" "Canceled")
      oC1w.id = some (some (refundCompleted oC1w)) ∧
    withdrawOf (adjust_service_qty_on_status_change stC1w oC1w "Completed" "Canceled")
      userC.refOwner = some (ownerA.withdrawable - refundCompleted oC1w * (4 / 100)) ∧
    refundCompleted oC1w = 10 := by
  have h := spec2_C1 stC1w oC1w svcA userC oC1w "Completed" "Canceled" (by decide)
    (Or.inr (by decide)) (by decide) (by decide) (by decide) (by decide) (by decide)
    (by decide) (by decide) (fun _ => by decide)
  refine ⟨h.1, h.2.1, h.2.2.2.1, h.2.2.2.2.1, h.2.2.2.2.2 ownerA (by decide) (by decide), ?_⟩
  norm_num [refundCompleted, effSellPrice, oC1w]

/-- C5 counterexample: starting from an all-zero (hence non-negative) store,
a single Pending → Canceled report whose `remain` (2) exceeds `qty` (1)
drives the user's total spend to -1: the branch adds
`spend_added = sell_price - (sell_price / qty) * remain` without clamping. -/
theorem spec2_C5_counterexample :
    nonnegStore stC5x ∧
    ¬ nonnegStore (runTransitions stC5x [(oC5x, "Pending", "Canceled")]) := by
  constructor
  · unfold nonnegStore
    decide
  · intro hnn
    have heq : runTransitions stC5x [(oC5x, "Pending", "Canceled")] =
        adjust_service_qty_on_status_change stC5x oC5x "Pending" "Canceled" := rfl
    have hsvc : find_service_for_order stC5x oC5x = some svcC5 := by decide
    have h2 : lowerStr "Canceled" = "partial" ∨ lowerStr "Canceled" = "canceled" ∨
        lowerStr "Canceled" = "cancelled" := Or.inr (Or.inl (by decide))
    have h3 : ¬(lowerStr "Pending" = "completed" ∨ lowerStr "Pending" = "partial" ∨
        lowerStr "Pending" = "canceled" ∨ lowerStr "Pending" = "cancelled") := by decide
    have hu : userByEmail stC5x oC5x.email = some userC5 := by decide
    have hs := partialBranch_spendOf stC5x oC5x svcC5 userC5 (by decide) (by decide) hu
    rw [heq, adjust_eq_partialCancel stC5x oC5x svcC5 "Pending" "Canceled" hsvc h2 h3]
      at hnn
    have h0 := nonneg_spendOf hnn hs
    have hneg : userC5.totalSpend + spendAddedPartial oC5x < 0 := by
      norm_num [userC5, spendAddedPartial, refundPartial, effSellPrice, oC5x]
    linarith

/-- C5 (amended with order sanity): starting from non-negative sold
counters and total spends, any sequence of transitions whose order rows
have non-negative quantity and prices and `0 ≤ remain ≤ qty` keeps every
service's sold quantity and every user's total spend non-negative. -/
theorem spec2_C5 (st : Store) (ts : List (OrderRow × String × String))
    (hst : nonnegStore st) (hwf : ∀ t ∈ ts, wfOrder t.1) :
    nonnegStore (runTransitions st ts) := by
  induction ts generalizing st with
  | nil => exact hst
  | cons t ts ih =>
      exact ih (stepTransition st t)
        (nonneg_adjust st t.1 t.2.1 t.2.2 hst (hwf t (by simp)))
        (fun t' ht' => hwf t' (by simp [ht']))

/-- C5 witness: a well-formed Pending → Canceled transition keeps the
concrete store non-negative. -/
theorem spec2_C5_witness :
    nonnegStore (runTransitions stC2 [(oC2, "Pending", "Canceled")]) :=
  spec2_C5 stC2 [(oC2, "Pending", "Canceled")] (by unfold nonnegStore; decide)
    (fun t ht => by
      simp only [List.mem_singleton] at ht
      subst ht
      unfold wfOrder
      decide)

theorem find_service_eq_of_services {st1 st2 : Store} (h : st1.services = st2.services)
    (o : OrderRow) : find_service_for_order st1 o = find_service_for_order st2 o := by
  unfold find_service_for_order
  rw [h]

theorem refundCompleted_le {o : OrderRow} (hq : 0 < o.quantity)
    (hrq : o.remain ≤ o.quantity) (hsp : 0 ≤ effSellPrice o) :
    refundCompleted o ≤ effSellPrice o := by
  unfold refundCompleted
  by_cases h : o.remain ≠ 0
  · rw [if_pos h]
    have hqr : (0 : Rat) < (o.quantity : Rat) := by exact_mod_cast hq
    have hrr : (o.remain : Rat) ≤ (o.quantity : Rat) := by exact_mod_cast hrq
    have h1 : (o.remain : Rat) / (o.quantity : Rat) ≤ 1 := by
      rw [div_le_one hqr]
      exact hrr
    calc (o.remain : Rat) / (o.quantity : Rat) * effSellPrice o
        ≤ 1 * effSellPrice o := mul_le_mul_of_nonneg_right h1 hsp
      _ = effSellPrice o := one_mul _
  · rw [if_neg h]

/-- C8 counterexample: scenario B itself refutes the identity as worded.
Processing → Completed then Completed → Canceled with `remain = 0` on a
10-dollar order: the user's total spend returns to its starting value 0
(spend added 10, then the full 10 refunded away), the stored refund amount
is 10, and `(0 - 0) - 10 ≠ 10 = sell_price`. -/
theorem spec2_C8_counterexample :
    spendOf (adjust_service_qty_on_status_change
      (adjust_service_qty_on_status_change stC8 oC8 "Processing" "Completed")
      oC8 "Completed" "Canceled") oC8.email = some userB.totalSpend ∧
    refundOf (adjust_service_qty_on_status_change
      (adjust_service_qty_on_status_change stC8 oC8 "Processing" "Completed")
      oC8 "Completed" "Canceled") oC8.id = some (some 10) ∧
    effSellPrice oC8 = 10 ∧ userB.totalSpend = 0 ∧
    ¬((userB.totalSpend - userB.totalSpend) - (10 : Rat) = effSellPrice oC8) := by
  have hstep1 := adjust_eq_completed stC8 oC8 svcA "Processing" "Completed" (by decide)
    (by decide) (by decide)
  have hspend1 := completedBranch_spendOf stC8 oC8 svcA userB (by decide) (by decide)
    (by decide)
  obtain ⟨u1, hu1, hu1s⟩ := exists_user_of_spendOf hspend1
  have hsvc1 : find_service_for_order (completedBranch stC8 oC8 svcA) oC8 =
      some { svcA with totalSoldQty := svcA.totalSoldQty + oC8.quantity } := by
    rw [find_service_eq_of_services (completedBranch_services stC8 oC8 svcA) oC8]
    rw [find_service_setSold]
    have : find_service_for_order stC8 oC8 = some svcA := by decide
    rw [this]
    simp
  have horder1 : orderById (completedBranch stC8 oC8 svcA) oC8.id = some oC8 := by
    unfold orderById
    rw [completedBranch_orders]
    decide
  have hstep2 := adjust_eq_refund (completedBranch stC8 oC8 svcA) oC8
    { svcA with totalSoldQty := svcA.totalSoldQty + oC8.quantity } "Completed" "Canceled"
    hsvc1 (by decide) (Or.inr (Or.inl (by decide)))
  have hsp2 := refundBranch_spendOf (completedBranch stC8 oC8 svcA) oC8
    { svcA with totalSoldQty := svcA.totalSoldQty + oC8.quantity } u1
    (by decide) (by decide) (by decide) hu1
  have href2 := refundBranch_refundOf (completedBranch stC8 oC8 svcA) oC8
    { svcA with totalSoldQty := svcA.totalSoldQty + oC8.quantity } u1 oC8 horder1
    (by decide) (by decide) (by decide) hu1
  refine ⟨?_, ?_, by decide, by decide, by norm_num [effSellPrice, oC8]⟩
  · rw [hstep1, hstep2, hsp2, hu1s]
    norm_num [refundCompleted, effSellPrice, oC8, userB]
  · rw [hstep1, hstep2, href2]
    norm_num [refundCompleted, effSellPrice, oC8]

/-- Observables of a full Completed-then-refund lifecycle: spend after the
two reconciler calls, and the stored refund amount. -/
theorem lifecycle_spend_refund (st : Store) (o : OrderRow) (svc : ServiceRow) (u : UserRow)
    (ord : OrderRow) (old1 new1 old2 new2 : String)
    (h_old1 : lowerStr old1 ≠ "completed") (h_new1 : lowerStr new1 = "completed")
    (h_old2 : lowerStr old2 = "completed")
    (h_new2 : lowerStr new2 = "partial" ∨ lowerStr new2 = "canceled")
    (hsvc : find_service_for_order st o = some svc)
    (hu : userByEmail st o.email = some u)
    (horder : orderById st o.id = some ord)
    (hemail : o.email ≠ "") (hqty : o.quantity ≠ 0) (hsp : 0 < effSellPrice o) :
    spendOf (adjust_service_qty_on_status_change
        (adjust_service_qty_on_status_change st o old1 new1) o old2 new2) o.email =
      some (max 0 (u.totalSpend + effSellPrice o - refundCompleted o)) ∧
    refundOf (adjust_service_qty_on_status_change
        (adjust_service_qty_on_status_change st o old1 new1) o old2 new2) o.id =
      some (some (refundCompleted o)) := by
  have hstep1 := adjust_eq_completed st o svc old1 new1 hsvc h_new1 h_old1
  have hspend1 := completedBranch_spendOf st o svc u hemail hsp.ne' hu
  obtain ⟨u1, hu1, hu1s⟩ := exists_user_of_spendOf hspend1
  have hsvc1 : find_service_for_order (completedBranch st o svc) o =
      some { svc with totalSoldQty := svc.totalSoldQty + o.quantity } := by
    rw [find_service_eq_of_services (completedBranch_services st o svc) o,
      find_service_setSold, hsvc]
    simp
  have horder1 : orderById (completedBranch st o svc) o.id = some ord := by
    unfold orderById
    rw [completedBranch_orders]
    exact horder
  have hstep2 := adjust_eq_refund (completedBranch st o svc) o
    { svc with totalSoldQty := svc.totalSoldQty + o.quantity } old2 new2 hsvc1 h_old2
    (h_new2.elim Or.inl (fun h => Or.inr (Or.inl h)))
  have hsp2 := refundBranch_spendOf (completedBranch st o svc) o
    { svc with totalSoldQty := svc.totalSoldQty + o.quantity } u1 hemail hqty hsp.ne' hu1
  have href2 := refundBranch_refundOf (completedBranch st o svc) o
    { svc with totalSoldQty := svc.totalSoldQty + o.quantity } u1 ord horder1
    hemail hqty hsp.ne' hu1
  constructor
  · rw [hstep1, hstep2, hsp2, hu1s]
  · rw [hstep1, hstep2, href2]

/-- C8 (amended: the conservation identity holds with a plus, not a minus):
over a Completed transition followed by a Completed → Partial/Canceled
refund, the net change of the user's total spend plus the stored refund
amount equals the order's sell price (exactly, in rational arithmetic),
provided the user's starting spend is non-negative and
`0 ≤ remain ≤ qty`. -/
theorem spec2_C8 (st : Store) (o : OrderRow) (svc : ServiceRow) (u : UserRow)
    (ord : OrderRow) (old1 new1 old2 new2 : String)
    (h_old1 : lowerStr old1 ≠ "completed") (h_new1 : lowerStr new1 = "completed")
    (h_old2 : lowerStr old2 = "completed")
    (h_new2 : lowerStr new2 = "partial" ∨ lowerStr new2 = "canceled")
    (hsvc : find_service_for_order st o = some svc)
    (hu : userByEmail st o.email = some u)
    (horder : orderById st o.id = some ord)
    (hemail : o.email ≠ "") (hqty : o.quantity ≠ 0) (hsp : 0 < effSellPrice o)
    (hspend0 : 0 ≤ u.totalSpend)
    (hrem0 : 0 ≤ o.remain) (hremq : o.remain ≤ o.quantity) :
    ∀ s2 r,
      spendOf (adjust_service_qty_on_status_change
        (adjust_service_qty_on_status_change st o old1 new1) o old2 new2) o.email =
        some s2 →
      refundOf (adjust_service_qty_on_status_change
        (adjust_service_qty_on_status_change st o old1 new1) o old2 new2) o.id =
        some (some r) →
      (s2 - u.totalSpend) + r = effSellPrice o := by
  have hqpos : 0 < o.quantity := lt_of_le_of_ne (hrem0.trans hremq) (Ne.symm hqty)
  obtain ⟨hS, hR⟩ := lifecycle_spend_refund st o svc u ord old1 new1 old2 new2
    h_old1 h_new1 h_old2 h_new2 hsvc hu horder hemail hqty hsp
  intro s2 r hs2 hr2
  rw [hS] at hs2
  rw [hR] at hr2
  have hs := Option.some.inj hs2
  have hr := Option.some.inj (Option.some.inj hr2)
  have hrle := refundCompleted_le hqpos hremq hsp.le
  have hclamp : max 0 (u.totalSpend + effSellPrice o - refundCompleted o) =
      u.totalSpend + effSellPrice o - refundCompleted o := by
    apply max_eq_right
    linarith
  rw [hclamp] at hs
  rw [← hs, ← hr]
  ring

/-- C8 witness: scenario B numbers satisfy the amended identity:
net spend change 0 - 0, refund 10, sell price 10. -/
theorem spec2_C8_witness :
    spendOf (adjust_service_qty_on_status_change
      (adjust_service_qty_on_status_change stC8 oC8 "Processing" "Completed")
      oC8 "Completed" "Canceled") oC8.email = some 0 ∧
    refundOf (adjust_service_qty_on_status_change
      (adjust_service_qty_on_status_change stC8 oC8 "Processing" "Completed")
      oC8 "Completed" "Canceled") oC8.id = some (some 10) ∧
    ((0 : Rat) - userB.totalSpend) + 10 = effSellPrice oC8 := by
  obtain ⟨hS, hR⟩ := lifecycle_spend_refund stC8 oC8 svcA userB oC8
    "Processing" "Completed" "Completed" "Canceled" (by decide) (by decide) (by decide)
    (Or.inr (by decide)) (by decide) (by decide) (by decide) (by decide) (by decide)
    (by decide)
  have h1 : spendOf (adjust_service_qty_on_status_change
      (adjust_service_qty_on_status_change stC8 oC8 "Processing" "Completed")
      oC8 "Completed" "Canceled") oC8.email = some 0 := by
    rw [hS]
    norm_num [refundCompleted, effSellPrice, oC8, userB]
  have h2 : refundOf (adjust_service_qty_on_status_change
      (adjust_service_qty_on_status_change stC8 oC8 "Processing" "Completed")
      oC8 "Completed" "Canceled") oC8.id = some (some 10) := by
    rw [hR]
    norm_num [refundCompleted, effSellPrice, oC8]
  exact ⟨h1, h2,
    spec2_C8 stC8 oC8 svcA userB oC8 "Processing" "Completed" "Completed" "Canceled"
      (by decide) (by decide) (by decide) (Or.inr (by decide)) (by decide) (by decide)
      (by decide) (by decide) (by decide) (by decide) (by decide) (by decide) (by decide)
      0 10 h1 h2⟩

/-- C6: the retrying executor described by the spec exists at bot.py line
626 (`safe_execute_v626`) and there behaves as claimed — shown here on a
transiently-failing-then-succeeding operation, an immediately-fatal one
(one attempt, no delay), and one failing transiently until exhaustion
(N attempts, exponential delays, last error re-raised).  But the program
re-defines `safe_execute` at line 701, and that effective version makes a
single attempt and swallows the error into a `data = None` stub: on the
same transient failure it neither retries nor re-raises. -/
theorem spec2_C6 :
    safe_execute_eff c6f =
      { result := ExecResult.dummyNone, attemptsMade := 1, delays := [] } ∧
    safe_execute_v626 c6f 5 1 =
      { result := ExecResult.value 42, attemptsMade := 2, delays := [1 * 2 ^ 0] } ∧
    safe_execute_v626 c6fatal 5 1 =
      { result := ExecResult.raised 9, attemptsMade := 1, delays := [] } ∧
    safe_execute_v626 c6transient 3 1 =
      { result := ExecResult.raised 2, attemptsMade := 3,
        delays := [1 * 2 ^ 0, 1 * 2 ^ 1, 1 * 2 ^ 2] } ∧
    ((1 : Rat) * 2 ^ 0 = 1 ∧ (1 : Rat) * 2 ^ 1 = 2 ∧ (1 : Rat) * 2 ^ 2 = 4) :=
  ⟨rfl, rfl, rfl, rfl, by norm_num⟩

/-- C7: the effective Balance Ledger (bot.py line 730, through the
swallowing `safe_execute` of line 701) returns False when the user is
missing or the read fails fatally, and computes `new = current + delta` on
success — but a fatal error during the write is swallowed and the function
still returns True with nothing persisted, contradicting the claim that
True is returned only when the new balance was actually persisted. -/
theorem spec2_C7 :
    (∀ st e a, update_user_balance_faulty false false st e a = update_user_balance st e a) ∧
    update_user_balance_faulty false false stC7 "x@y" 3 = (stC7, false) ∧
    update_user_balance_faulty true false stC7 "a@b.c" 3 = (stC7, false) ∧
    balanceOf (update_user_balance_faulty false false stC7 "a@b.c" 3).1 "a@b.c" =
      some (5 + 3) ∧
    (update_user_balance_faulty false false stC7 "a@b.c" 3).2 = true ∧
    update_user_balance_faulty false true stC7 "a@b.c" 3 = (stC7, true) := by
  refine ⟨?_, rfl, rfl, rfl, rfl, rfl⟩
  intro st e a
  unfold update_user_balance_faulty update_user_balance
  cases h : userByEmail st e <;> simp [h]

/-- C9: the splitting `safe_send` of bot.py line 22 (`safe_send_v22`) does
deliver a 4001-character text as two messages of 4000 and 1 characters —
but the effective `safe_send` (line 984) passes the whole oversized text to
a single send call, so the claim fails on the running code. -/
theorem spec2_C9 :
    safe_send_eff c9text = [c9text] ∧
    c9text.length = 4001 ∧
    safe_send_v22 c9text = [⟨List.replicate 4000 'a'⟩, ⟨List.replicate 1 'a'⟩] ∧
    (safe_send_v22 c9text).map String.length = [4000, 1] := by
  have hlen : c9text.length = 4001 := by
    show (List.replicate 4001 'a').length = 4001
    rw [List.length_replicate]
  have hchunks : safe_send_v22 c9text =
      [⟨List.replicate 4000 'a'⟩, ⟨List.replicate 1 'a'⟩] := by
    have hne1 : ¬(List.replicate 4001 'a' = []) := by
      intro hx
      have hlx := congrArg List.length hx
      rw [List.length_replicate, List.length_nil] at hlx
      exact absurd hlx (by norm_num)
    have hne2 : ¬(List.replicate 1 'a' = []) := by
      intro hx
      have hlx := congrArg List.length hx
      rw [List.length_replicate, List.length_nil] at hlx
      exact absurd hlx (by norm_num)
    unfold safe_send_v22
    rw [if_pos (by rw [hlen]; norm_num)]
    have hdata : c9text.data = List.replicate 4001 'a' := rfl
    rw [hdata]
    rw [sendChunks, if_neg hne1, List.take_replicate, List.drop_replicate]
    have h1 : min 4000 4001 = 4000 := by norm_num
    have h2 : 4001 - 4000 = 1 := by norm_num
    rw [h1, h2]
    rw [sendChunks, if_neg hne2, List.take_replicate, List.drop_replicate]
    have h3 : min 4000 1 = 1 := by norm_num
    have h4 : 1 - 4000 = 0 := by norm_num
    rw [h3, h4]
    rw [show List.replicate 0 'a' = [] from rfl]
    rw [sendChunks, if_pos rfl]
    rfl
  refine ⟨rfl, hlen, hchunks, ?_⟩
  rw [hchunks]
  simp only [List.map_cons, List.map_nil]
  rw [show String.length ⟨List.replicate 4000 'a'⟩ = (List.replicate 4000 'a').length from rfl]
  rw [show String.length ⟨List.replicate 1 'a'⟩ = (List.replicate 1 'a').length from rfl]
  rw [List.length_replicate, List.length_replicate]
